import Mathlib

/-!
Treehole message board: storage model and message routes.

A shallow embedding of `backend/models/Message.js` (the SQLite-backed model),
`backend/routes/messages.js` (the five Express handlers) and the table of
`backend/database/init.js`, followed by theorems about them.

Conventions of the embedding:

* a JavaScript string is the list of its UTF-16 code units, so `List.length`
  is the `.length` of the source and `trim` removes the code units that
  `String.prototype.trim` removes;
* the `messages` table is the list of its rows in scan (rowid) order together
  with the `AUTOINCREMENT` high-water mark; numbers are exact integers
  (JavaScript numbers and SQLite integers agree with them below `2^53`);
* every callback error of the driver is an explicit input (`Env`), as is the
  clock and whatever other requests write between two statements of one
  handler.
-/

set_option autoImplicit false

namespace Treehole

/-! ## JavaScript values and strings -/

/-- A JavaScript string: its UTF-16 code units. -/
abbrev Str := List Nat

/-- The code units removed by `String.prototype.trim` and skipped by `parseInt`:
ECMAScript `WhiteSpace` and `LineTerminator`. -/
def isWhiteSpace (c : Nat) : Bool :=
  c == 0x09 || c == 0x0A || c == 0x0B || c == 0x0C || c == 0x0D || c == 0x20 ||
  c == 0xA0 || c == 0x1680 || (0x2000 ≤ c && c ≤ 0x200A) || c == 0x2028 ||
  c == 0x2029 || c == 0x202F || c == 0x205F || c == 0x3000 || c == 0xFEFF

/-- The method `String.prototype.trim`. -/
def trim (s : Str) : Str :=
  ((s.dropWhile isWhiteSpace).reverse.dropWhile isWhiteSpace).reverse

/-- A value found in a parsed request body. Arrays and objects are not told
apart: the handlers only test truthiness and `typeof`. -/
inductive JsVal where
  | undefined
  | null
  | bool (b : Bool)
  | num (n : Int)
  | str (s : Str)
  | obj
  deriving DecidableEq, Repr

/-- JavaScript truthiness (`!v` is its negation). -/
def JsVal.truthy : JsVal → Bool
  | .undefined => false
  | .null => false
  | .bool b => b
  | .num n => n != 0
  | .str s => !s.isEmpty
  | .obj => true

/-- The test `typeof v === 'string'`. -/
def JsVal.isString : JsVal → Bool
  | .str _ => true
  | _ => false

/-- The code units of a string value (empty for any other value). -/
def JsVal.units : JsVal → Str
  | .str s => s
  | _ => []

/-- The value of a code unit as a digit in some radix up to 36. -/
def digitVal (c : Nat) : Option Nat :=
  if 48 ≤ c ∧ c ≤ 57 then some (c - 48)
  else if 97 ≤ c ∧ c ≤ 122 then some (c - 97 + 10)
  else if 65 ≤ c ∧ c ≤ 90 then some (c - 65 + 10)
  else none

/-- The digits of the longest prefix of `s` made of radix-`R` digits. -/
def takeDigits (R : Nat) : Str → List Nat
  | [] => []
  | c :: t =>
    match digitVal c with
    | some d => if d < R then d :: takeDigits R t else []
    | none => []

/-- The number written by a list of digits, most significant first. -/
def digitsValue (R : Nat) (ds : List Nat) : Nat :=
  ds.foldl (fun acc d => acc * R + d) 0

/-- The global `parseInt(string)` with no radix argument; `none` is `NaN`.
Leading white space is skipped, one sign is read, a `0x`/`0X` mark selects
radix 16, and the longest run of digits is read. -/
def parseInt (s : Str) : Option Int :=
  let s1 := s.dropWhile isWhiteSpace
  let signed : Bool × Str :=
    match s1 with
    | 45 :: t => (true, t)
    | 43 :: t => (false, t)
    | _ => (false, s1)
  let radixed : Nat × Str :=
    match signed.2 with
    | 48 :: 120 :: t => (16, t)
    | 48 :: 88 :: t => (16, t)
    | _ => (10, signed.2)
  let ds := takeDigits radixed.1 radixed.2
  if ds.isEmpty then none
  else if signed.1 then some (-(digitsValue radixed.1 ds : Int))
  else some (digitsValue radixed.1 ds : Int)

/-! ## The `messages` table -/

/-- One row of `messages` (the columns of `createTableSQL`). -/
structure Row where
  id : Nat
  content : Str
  nickname : Str
  likes : Nat
  created_at : Nat
  ip_address : Option Str
  deriving DecidableEq, Repr

/-- The table: its rows in scan order, and the largest rowid ever handed out
(`sqlite_sequence`, kept because the key is `AUTOINCREMENT`). -/
structure Store where
  rows : List Row
  seq : Nat
  deriving DecidableEq, Repr

/-- What the four `SELECT id, content, nickname, likes, datetime(...) as time`
queries return for a row. `time` is the stored instant; the source renders it
as local-time text. -/
structure View where
  id : Nat
  content : Str
  nickname : Str
  likes : Nat
  time : Nat
  deriving DecidableEq, Repr

/-- The column list of the `SELECT` statements. -/
def Row.view (r : Row) : View :=
  ⟨r.id, r.content, r.nickname, r.likes, r.created_at⟩

/-- The test `WHERE id = ?`. -/
def Row.hasId (id : Int) (r : Row) : Bool :=
  (r.id : Int) == id

/-- The largest rowid in the table. -/
def maxId : List Row → Nat
  | [] => 0
  | r :: t => max r.id (maxId t)

/-- The rowid the next `INSERT` receives under `AUTOINCREMENT`. -/
def nextId (s : Store) : Nat :=
  max s.seq (maxId s.rows) + 1

/-- One step of the sort for `ORDER BY created_at DESC`. -/
def insertDesc (r : Row) : List Row → List Row
  | [] => [r]
  | b :: t => if b.created_at ≤ r.created_at then r :: b :: t else b :: insertDesc r t

/-- The ordering `ORDER BY created_at DESC` of a scan. SQL leaves the order of
rows with equal keys open; they keep their scan order here, which is what the
SQLite sorter produces. -/
def orderByCreatedAtDesc : List Row → List Row
  | [] => []
  | r :: t => insertDesc r (orderByCreatedAtDesc t)

/-- The statement `db.get(... WHERE id = ?)`: the first matching row. -/
def selectById (id : Int) (s : Store) : Option View :=
  (s.rows.find? (Row.hasId id)).map Row.view

/-- The statement `INSERT INTO messages (content, nickname, ip_address)`:
`likes` and `created_at` take their column defaults. -/
def insertRow (stamp : Nat) (content nickname : Str) (ipAddress : Option Str)
    (s : Store) : Store :=
  ⟨s.rows ++ [⟨nextId s, content, nickname, 0, stamp, ipAddress⟩], nextId s⟩

/-- The statement `DELETE FROM messages WHERE id = ?`. -/
def deleteRows (id : Int) (s : Store) : Store :=
  ⟨s.rows.filter (fun r => !Row.hasId id r), s.seq⟩

/-- The statement `UPDATE messages SET likes = likes + 1 WHERE id = ?`. -/
def bumpLikes (id : Int) (s : Store) : Store :=
  ⟨s.rows.map (fun r =>
      if Row.hasId id r then
        ⟨r.id, r.content, r.nickname, r.likes + 1, r.created_at, r.ip_address⟩
      else r), s.seq⟩

/-- The number of rows a `WHERE id = ?` statement touches (`this.changes`). -/
def changes (id : Int) (s : Store) : Nat :=
  (s.rows.filter (Row.hasId id)).length

/-! ## `Message.js` -/

/-- The text of the error `likeMessage` rejects with when no row matched. -/
def notFoundText : String := "留言不存在"

/-- `Message.getAllMessages`: `conn` is the error of `getConnection`, `stmt`
the error handed to the `db.all` callback. -/
def getAllMessages (conn stmt : Option String) (s : Store) :
    Except String (List View) :=
  match conn with
  | some err => .error err
  | none =>
    match stmt with
    | some err => .error err
    | none => .ok ((orderByCreatedAtDesc s.rows).map Row.view)

/-- `Message.createMessage`: insert, then read the row back by `this.lastID`.
`between` is what other connections write between the two statements. The
promise resolves with `undefined` (`none`) when the read finds no row. -/
def createMessage (conn stmt1 : Option String) (between : Store → Store)
    (stmt2 : Option String) (stamp : Nat) (content nickname : Str)
    (ipAddress : Option Str) (s : Store) : Except String (Option View) × Store :=
  match conn with
  | some err => (.error err, s)
  | none =>
    match stmt1 with
    | some err => (.error err, s)
    | none =>
      let lastID := nextId s
      let s2 := between (insertRow stamp content nickname ipAddress s)
      match stmt2 with
      | some err => (.error err, s2)
      | none => (.ok (selectById lastID s2), s2)

/-- `Message.deleteMessage`: resolves with `this.changes > 0`. -/
def deleteMessage (conn stmt : Option String) (id : Int) (s : Store) :
    Except String Bool × Store :=
  match conn with
  | some err => (.error err, s)
  | none =>
    match stmt with
    | some err => (.error err, s)
    | none => (.ok (decide (changes id s > 0)), deleteRows id s)

/-- `Message.getMessageById`: resolves with `row || null`. -/
def getMessageById (conn stmt : Option String) (id : Int) (s : Store) :
    Except String (Option View) :=
  match conn with
  | some err => .error err
  | none =>
    match stmt with
    | some err => .error err
    | none => .ok (selectById id s)

/-- `Message.likeMessage`: increment, reject with `notFoundText` when no row
changed, else read the row back. `between` is what other connections write
between the two statements. -/
def likeMessage (conn stmt1 : Option String) (between : Store → Store)
    (stmt2 : Option String) (id : Int) (s : Store) :
    Except String (Option View) × Store :=
  match conn with
  | some err => (.error err, s)
  | none =>
    match stmt1 with
    | some err => (.error err, s)
    | none =>
      if changes id s = 0 then (.error notFoundText, s)
      else
        let s2 := between (bumpLikes id s)
        match stmt2 with
        | some err => (.error err, s2)
        | none => (.ok (selectById id s2), s2)

/-! ## `routes/messages.js` -/

/-- The values handed to `createResponse` as `data`. `undefined` is what a
promise resolved with no row passes on. -/
inductive Data where
  | null
  | undefined
  | messages (rows : List View)
  | message (row : View)
  | deleted (id : Int)
  deriving DecidableEq, Repr

/-- The value of a resolved row that may be `undefined`. -/
def Data.ofRow : Option View → Data
  | some v => .message v
  | none => .undefined

/-- The object built by `createResponse`. -/
structure Envelope where
  success : Bool
  data : Data
  message : String
  timestamp : Nat
  deriving DecidableEq, Repr

/-- What the client receives: the status code and the JSON body. -/
structure Response where
  status : Nat
  body : Envelope
  deriving DecidableEq, Repr

/-- The default of the parameter `data = null`: an `undefined` argument is
replaced by `null`, any other value is kept. -/
def Data.orNull : Data → Data
  | .undefined => .null
  | d => d

/-- The helper `createResponse = (success, data = null, message = '')`; `now` is
the instant `new Date()` reads. Every call site passes `message`. -/
def createResponse (now : Nat) (success : Bool) (data : Data) (message : String) :
    Envelope :=
  ⟨success, data.orNull, message, now⟩

/-- What one request meets outside its own code: the clock of the response,
the `CURRENT_TIMESTAMP` of an insert, the errors of the driver callbacks in the
order the handler reaches them, and the writes of other requests that land
between the handler's first and second statement. `open2` is the second
`getConnection` of the Delete handler. -/
structure Env where
  now : Nat
  stamp : Nat
  open1 : Option String
  stmt1 : Option String
  between : Store → Store
  open2 : Option String
  stmt2 : Option String

/-- An environment in which no driver call fails and no other request writes. -/
def Env.calm (now stamp : Nat) : Env :=
  ⟨now, stamp, none, none, id, none, none⟩

/-- The body and origin of a Create request. -/
structure CreateReq where
  content : JsVal
  nickname : JsVal
  ip : Option Str
  remoteAddress : Option Str
  deriving DecidableEq, Repr

/-- The sentinel nickname, `'匿名用户'`. -/
def defaultNickname : Str := [0x533F, 0x540D, 0x7528, 0x6237]

/-- The text `'unknown'`. -/
def unknownIP : Str := [117, 110, 107, 110, 111, 119, 110]

/-- The generic body of a caught error. -/
def internalError (now : Nat) : Response :=
  ⟨500, createResponse now false .null "服务器内部错误"⟩

/-- The body of a rejected path id. -/
def invalidId (now : Nat) : Response :=
  ⟨400, createResponse now false .null "无效的留言ID"⟩

/-- The body of an id with no row. -/
def notFound (now : Nat) : Response :=
  ⟨404, createResponse now false .null notFoundText⟩

/-- The nickname block of the Create handler. -/
def validNickname (nickname : JsVal) : Str :=
  if nickname.truthy && nickname.isString then
    let trimmedNickname := trim nickname.units
    if trimmedNickname.length > 0 ∧ trimmedNickname.length ≤ 20 then trimmedNickname
    else defaultNickname
  else defaultNickname

/-- The expression `req.ip || req.connection.remoteAddress || 'unknown'`. -/
def clientIP (req : CreateReq) : Str :=
  match req.ip with
  | some (c :: t) => c :: t
  | _ =>
    match req.remoteAddress with
    | some (c :: t) => c :: t
    | _ => unknownIP

/-- The `try` block of `router.get('/')`: a rejected promise is a thrown
error (`Except.error`). -/
def listTry (e : Env) (s : Store) : Except String Response × Store :=
  match getAllMessages e.open1 e.stmt1 s with
  | .ok messages =>
    (.ok ⟨200, createResponse e.now true (.messages messages) "获取留言列表成功"⟩, s)
  | .error err => (.error err, s)

/-- The `try` block of `router.post('/')`. -/
def postTry (e : Env) (req : CreateReq) (s : Store) : Except String Response × Store :=
  if !req.content.truthy || !req.content.isString then
    (.ok ⟨400, createResponse e.now false .null "留言内容不能为空"⟩, s)
  else
    let trimmedContent := trim req.content.units
    if trimmedContent.length = 0 then
      (.ok ⟨400, createResponse e.now false .null "留言内容不能为空"⟩, s)
    else if trimmedContent.length > 200 then
      (.ok ⟨400, createResponse e.now false .null "留言内容不能超过200字符"⟩, s)
    else
      match createMessage e.open1 e.stmt1 e.between e.stmt2 e.stamp trimmedContent
          (validNickname req.nickname) (some (clientIP req)) s with
      | (.ok newMessage, s2) =>
        (.ok ⟨201, createResponse e.now true (Data.ofRow newMessage) "留言发布成功"⟩, s2)
      | (.error err, s2) => (.error err, s2)

/-- The `try` block of `router.delete('/:id')`. -/
def deleteTry (e : Env) (id : Str) (s : Store) : Except String Response × Store :=
  match parseInt id with
  | none => (.ok (invalidId e.now), s)
  | some messageId =>
    if messageId ≤ 0 then (.ok (invalidId e.now), s)
    else
      match getMessageById e.open1 e.stmt1 messageId s with
      | .error err => (.error err, s)
      | .ok none => (.ok (notFound e.now), s)
      | .ok (some _) =>
        match deleteMessage e.open2 e.stmt2 messageId (e.between s) with
        | (.error err, s2) => (.error err, s2)
        | (.ok true, s2) =>
          (.ok ⟨200, createResponse e.now true (.deleted messageId) "留言删除成功"⟩, s2)
        | (.ok false, s2) => (.ok ⟨500, createResponse e.now false .null "删除失败"⟩, s2)

/-- The `try` block of `router.get('/:id')`. -/
def getTry (e : Env) (id : Str) (s : Store) : Except String Response × Store :=
  match parseInt id with
  | none => (.ok (invalidId e.now), s)
  | some messageId =>
    if messageId ≤ 0 then (.ok (invalidId e.now), s)
    else
      match getMessageById e.open1 e.stmt1 messageId s with
      | .error err => (.error err, s)
      | .ok (some message) =>
        (.ok ⟨200, createResponse e.now true (.message message) "获取留言成功"⟩, s)
      | .ok none => (.ok (notFound e.now), s)

/-- The `try` block of `router.put('/:id/like')`. -/
def likeTry (e : Env) (id : Str) (s : Store) : Except String Response × Store :=
  match parseInt id with
  | none => (.ok (invalidId e.now), s)
  | some messageId =>
    if messageId ≤ 0 then (.ok (invalidId e.now), s)
    else
      match likeMessage e.open1 e.stmt1 e.between e.stmt2 messageId s with
      | (.ok updatedMessage, s2) =>
        (.ok ⟨200, createResponse e.now true (Data.ofRow updatedMessage) "点赞成功"⟩, s2)
      | (.error err, s2) => (.error err, s2)

/-- The `catch` block shared by List, Create, Delete and Get: whatever was
thrown, answer with the generic body. -/
def catchAny (now : Nat) : Except String Response × Store → Response × Store
  | (.ok r, s) => (r, s)
  | (.error _, s) => (internalError now, s)

/-- The `catch` block of Like: the not-found rejection is told from any other
error by its text. -/
def catchLike (now : Nat) : Except String Response × Store → Response × Store
  | (.ok r, s) => (r, s)
  | (.error msg, s) =>
    if msg = notFoundText then (notFound now, s) else (internalError now, s)

/-- The handler `router.get('/')`. -/
def listHandler (e : Env) (s : Store) : Response × Store :=
  catchAny e.now (listTry e s)

/-- The handler `router.post('/')`. -/
def postHandler (e : Env) (req : CreateReq) (s : Store) : Response × Store :=
  catchAny e.now (postTry e req s)

/-- The handler `router.delete('/:id')`. -/
def deleteHandler (e : Env) (id : Str) (s : Store) : Response × Store :=
  catchAny e.now (deleteTry e id s)

/-- The handler `router.get('/:id')`. -/
def getHandler (e : Env) (id : Str) (s : Store) : Response × Store :=
  catchAny e.now (getTry e id s)

/-- The handler `router.put('/:id/like')`. -/
def likeHandler (e : Env) (id : Str) (s : Store) : Response × Store :=
  catchLike e.now (likeTry e id s)

/-- A request to one of the five message endpoints. -/
inductive Request where
  | list
  | create (req : CreateReq)
  | get (id : Str)
  | delete (id : Str)
  | like (id : Str)
  deriving DecidableEq, Repr

/-- The router: dispatch of a request to its handler. -/
def handle (e : Env) : Request → Store → Response × Store
  | .list, s => listHandler e s
  | .create req, s => postHandler e req s
  | .get id, s => getHandler e id s
  | .delete id, s => deleteHandler e id s
  | .like id, s => likeHandler e id s

/-- The `try` block a request runs. -/
def tryBlock (e : Env) : Request → Store → Except String Response × Store
  | .list, s => listTry e s
  | .create req, s => postTry e req s
  | .get id, s => getTry e id s
  | .delete id, s => deleteTry e id s
  | .like id, s => likeTry e id s

/-- The text of the error a request's `try` block throws, if it throws. -/
def thrown (e : Env) (r : Request) (s : Store) : Option String :=
  match (tryBlock e r s).1 with
  | .error msg => some msg
  | .ok _ => none

/-- The store after a sequence of requests handled one after the other. -/
def run : List (Env × Request) → Store → Store
  | [], s => s
  | (e, r) :: t, s => run t (handle e r s).2

/-- The responses of a sequence of requests handled one after the other. -/
def responses : List (Env × Request) → Store → List Response
  | [], _ => []
  | (e, r) :: t, s => (handle e r s).1 :: responses t (handle e r s).2

/-- The Create requests that pass validation: `content` is a string of 1 to 200
code units after trimming. -/
def ValidContent (req : CreateReq) : Prop :=
  ∃ c : Str, req.content = JsVal.str c ∧ 1 ≤ (trim c).length ∧ (trim c).length ≤ 200

/-- A sequence of Create requests handled one after the other with no storage
failure; each comes with the clock of its response and the `CURRENT_TIMESTAMP`
of its insert. -/
def createSteps (cs : List (Nat × Nat × CreateReq)) : List (Env × Request) :=
  cs.map (fun c => (Env.calm c.1 c.2.1, Request.create c.2.2))

/-- The requests that are a Like of record `n`. -/
def isLikeOf (n : Int) : Request → Bool
  | .like p => parseInt p == some n
  | _ => false

/-- The requests whose path id addresses record `n`. -/
def addresses (n : Int) : Request → Bool
  | .get p => parseInt p == some n
  | .delete p => parseInt p == some n
  | .like p => parseInt p == some n
  | _ => false

/-- An environment in which no driver call fails. -/
def NoFault (e : Env) : Prop :=
  e.open1 = none ∧ e.stmt1 = none ∧ e.open2 = none ∧ e.stmt2 = none

/-- The `likes` of the record a response carries, if it carries one. -/
def likesReported (r : Response) : Option Nat :=
  match r.body.data with
  | .message v => some v.likes
  | _ => none

/-- The status and reported `likes` of the responses to the Likes of record `n`
in a sequence of requests handled one after the other, in order. -/
def likeReports (n : Int) : List (Env × Request) → Store → List (Nat × Option Nat)
  | [], _ => []
  | (e, r) :: t, s =>
    if isLikeOf n r then
      ((handle e r s).1.status, likesReported (handle e r s).1) ::
        likeReports n t (handle e r s).2
    else likeReports n t (handle e r s).2

/-- The requests to the Like endpoint. -/
def isLike : Request → Bool
  | .like _ => true
  | _ => false

/-! ## `database/init.js` -/

/-- The constant `sampleMessages`: content and nickname of the four seed rows. -/
def sampleMessages : List (Str × Str) :=
  [([36825, 38376, 35838, 32456, 20110, 24320, 22987, 20570, 39033, 30446, 20102, 65292,
      26377, 28857, 26399, 24453, 65281],
    [23398, 20064, 36798, 20154]),
   ([20170, 22825, 39135, 22530, 30340, 32418, 28903, 32905, 19981, 38169, 65292, 25512,
      33616, 22823, 23478, 21435, 23581, 23581, 12290],
    [32654, 39135, 23478]),
   ([78, 111, 100, 101, 46, 106, 115, 32, 43, 32, 83, 81, 76, 105, 116, 101, 32, 30340,
      32452, 21512, 30495, 30340, 24456, 36866, 21512, 23567, 39033, 30446, 65281],
    [25216, 26415, 25511]),
   ([26377, 20154, 30693, 36947, 26399, 26411, 32771, 35797, 30340, 20855, 20307, 26102,
      38388, 21527, 65311],
    [28966, 34385, 26143, 20154])]

/-- What one run of `initDatabase` meets: the errors of opening the database,
of `CREATE TABLE IF NOT EXISTS`, of the `COUNT(*)` query, of the insert of the
sample at each index and of `db.close`, and the `CURRENT_TIMESTAMP` of each
insert. -/
structure InitEnv where
  openErr : Option String
  createErr : Option String
  countErr : Option String
  insertErr : Nat → Option String
  stamp : Nat → Nat
  closeErr : Option String

/-- The `forEach` over the samples, from index `i` on: a failed insert is
logged and skipped, the others append a row with the column defaults
(`likes = 0`, no `ip_address`). -/
def seed (f : InitEnv) : Nat → List (Str × Str) → Store → Store
  | _, [], s => s
  | i, m :: t, s =>
    match f.insertErr i with
    | some _ => seed f (i + 1) t s
    | none => seed f (i + 1) t (insertRow (f.stamp i) m.1 m.2 none s)

/-- The function `initDatabase`, on a database file in which the table may not
exist yet (`none`). The result is the error the promise rejects with, or the
table once the promise has resolved; what the statements still queued do to the
table after a rejection is not followed. -/
def initDatabase (f : InitEnv) (db : Option Store) : Except String Store :=
  match f.openErr with
  | some err => .error err
  | none =>
    match f.createErr with
    | some err => .error err
    | none =>
      let table : Store := db.getD ⟨[], 0⟩
      match f.countErr with
      | some err => .error err
      | none =>
        if table.rows.length = 0 then
          match f.closeErr with
          | some err => .error err
          | none => .ok (seed f 0 sampleMessages table)
        else
          match f.closeErr with
          | some err => .error err
          | none => .ok table

/-- A run of `initDatabase` in which no storage operation fails. -/
def InitEnv.NoFault (f : InitEnv) : Prop :=
  f.openErr = none ∧ f.createErr = none ∧ f.countErr = none ∧
  (∀ i, f.insertErr i = none) ∧ f.closeErr = none

/-! ## `frontend/script.js` -/

/-- The result object of `validateInput`. -/
inductive Validation where
  | invalid (message : String)
  | valid (content nickname : Str)
  deriving DecidableEq, Repr

/-- The function `validateInput`, on the values of the two input fields. -/
def validateInput (msgInputValue nicknameInputValue : Str) : Validation :=
  let content := trim msgInputValue
  let nickname := trim nicknameInputValue
  if content.length = 0 then .invalid "请输入留言内容后再发送！"
  else if content.length > 200 then .invalid "留言内容不能超过200字符！"
  else if nickname.length > 20 then .invalid "昵称不能超过20字符！"
  else .valid content (if nickname.isEmpty then defaultNickname else nickname)

/-- The request `sendMessage` posts for a valid result: the JSON body
`{content, nickname}`, arriving from some network origin. -/
def sendMessage (content nickname : Str) (ip remoteAddress : Option Str) : CreateReq :=
  ⟨JsVal.str content, JsVal.str nickname, ip, remoteAddress⟩

/-! ## Notions used in the statements -/

/-- A row with its `ip_address` blanked. -/
def Row.withoutIp (r : Row) : Row :=
  ⟨r.id, r.content, r.nickname, r.likes, r.created_at, none⟩

/-- A store with every `ip_address` blanked: two stores with the same image
differ at most in the `ip_address` values of their rows. -/
def Store.withoutIp (s : Store) : Store :=
  ⟨s.rows.map Row.withoutIp, s.seq⟩

/-- The id of the record a request addresses: the parsed path id, or for
Create the rowid the insert will hand out; List addresses none. -/
def target (s : Store) : Request → Option Int
  | .list => none
  | .create _ => some (nextId s : Int)
  | .get p => parseInt p
  | .delete p => parseInt p
  | .like p => parseInt p

/-- The code units `'0'` to `'9'`. -/
def isDecimalDigit (c : Nat) : Bool :=
  48 ≤ c && c ≤ 57

/-- The shape every response of the message routes has: the body is built by
`createResponse`, the timestamp is the clock of the request, and either `success` is true with status 200 or 201, or
`success` is false with `data = null` and status 400, 404 or 500. -/
def Uniform (now : Nat) (r : Response) : Prop :=
  (∃ (success : Bool) (data : Data) (message : String),
    r.body = createResponse now success data message) ∧
  r.body.timestamp = now ∧
  ((r.body.success = true ∧ (r.status = 200 ∨ r.status = 201)) ∨
   (r.body.success = false ∧ r.body.data = Data.null ∧
     (r.status = 400 ∨ r.status = 404 ∨ r.status = 500)))

/-- The requests that pass the handler's validation and so reach the storage
layer. -/
def Admitted : Request → Prop
  | .list => True
  | .create req => ValidContent req
  | .get p => ∃ n, parseInt p = some n ∧ 0 < n
  | .delete p => ∃ n, parseInt p = some n ∧ 0 < n
  | .like p => ∃ n, parseInt p = some n ∧ 0 < n

/-- The driver error `msg` is the first one the run of request `r` meets, read
off the environment: `getConnection` fails; or it succeeds and the first
statement fails; or both succeed and the handler goes on to a second driver
call that fails. Create goes on to its read-back; Like goes on to its read-back
when the update matched a row; Delete goes on to the second `getConnection` and
the `DELETE` when the existence check found a row; List and Get make no second
call. -/
def FirstFault (e : Env) (r : Request) (s : Store) (msg : String) : Prop :=
  e.open1 = some msg ∨
  (e.open1 = none ∧ e.stmt1 = some msg) ∨
  (e.open1 = none ∧ e.stmt1 = none ∧
    match r with
    | .list => False
    | .get _ => False
    | .create _ => e.stmt2 = some msg
    | .like p =>
      (∃ n, parseInt p = some n ∧ ∃ row ∈ s.rows, (row.id : Int) = n) ∧ e.stmt2 = some msg
    | .delete p =>
      (∃ n, parseInt p = some n ∧ ∃ row ∈ s.rows, (row.id : Int) = n) ∧
      (e.open2 = some msg ∨ (e.open2 = none ∧ e.stmt2 = some msg)))

/-! ## Lemmas on the statements -/

@[simp]
theorem orNull_null : Data.orNull Data.null = Data.null := rfl

@[simp]
theorem orNull_undefined : Data.orNull Data.undefined = Data.null := rfl

@[simp]
theorem orNull_messages (rows : List View) :
    Data.orNull (Data.messages rows) = Data.messages rows := rfl

@[simp]
theorem orNull_message (row : View) :
    Data.orNull (Data.message row) = Data.message row := rfl

@[simp]
theorem orNull_deleted (id : Int) : Data.orNull (Data.deleted id) = Data.deleted id := rfl

theorem orNull_ne_undefined (d : Data) : d.orNull ≠ Data.undefined := by
  cases d <;> simp [Data.orNull]

theorem le_maxId {rows : List Row} {r : Row} (h : r ∈ rows) : r.id ≤ maxId rows := by
  induction rows with
  | nil => cases h
  | cons a t ih =>
    rcases List.mem_cons.mp h with rfl | h
    · exact Nat.le_max_left _ _
    · exact Nat.le_trans (ih h) (Nat.le_max_right _ _)

theorem nextId_pos (s : Store) : 0 < nextId s := Nat.succ_pos _

theorem find_nextId (s : Store) : s.rows.find? (Row.hasId (nextId s)) = none := by
  rw [List.find?_eq_none]
  intro r hr
  have := le_maxId hr
  simp only [Row.hasId, beq_iff_eq, nextId]
  omega

theorem selectById_insertRow_new (stamp : Nat) (c n : Str) (ip : Option Str) (s : Store) :
    selectById (nextId s) (insertRow stamp c n ip s) = some ⟨nextId s, c, n, 0, stamp⟩ := by
  simp [selectById, insertRow, List.find?_append, find_nextId, Row.hasId, Row.view]

theorem selectById_insertRow_old {id : Int} {s : Store} {v : View} (stamp : Nat)
    (c n : Str) (ip : Option Str) (h : selectById id s = some v) :
    selectById id (insertRow stamp c n ip s) = some v := by
  unfold selectById at h ⊢
  cases hf : s.rows.find? (Row.hasId id) with
  | none => simp [hf] at h
  | some r => simpa [insertRow, List.find?_append, hf] using h

theorem selectById_deleteRows_same (id : Int) (s : Store) :
    selectById id (deleteRows id s) = none := by
  simp [selectById, deleteRows, List.find?_eq_none]

theorem find_filter_other {id m : Int} (hm : m ≠ id) (rows : List Row) :
    (rows.filter (fun r => !Row.hasId m r)).find? (Row.hasId id) = rows.find? (Row.hasId id) := by
  induction rows with
  | nil => rfl
  | cons a t ih =>
    by_cases ha : Row.hasId id a = true
    · have hma : Row.hasId m a = false := by
        simp only [Row.hasId, beq_iff_eq, beq_eq_false_iff_ne] at ha ⊢
        omega
      simp [List.filter_cons, hma, ha]
    · by_cases hma : Row.hasId m a = true
      · simp [List.filter_cons, hma, ha, ih]
      · simp [List.filter_cons, hma, ha, ih]

theorem selectById_deleteRows_other {id m : Int} (hm : m ≠ id) (s : Store) :
    selectById id (deleteRows m s) = selectById id s := by
  simp [selectById, deleteRows, find_filter_other hm]

theorem find_bump (id m : Int) (rows : List Row) :
    (rows.map (fun r => if Row.hasId m r then
        (⟨r.id, r.content, r.nickname, r.likes + 1, r.created_at, r.ip_address⟩ : Row)
      else r)).find? (Row.hasId id) =
    (rows.find? (Row.hasId id)).map (fun r => if Row.hasId m r then
        (⟨r.id, r.content, r.nickname, r.likes + 1, r.created_at, r.ip_address⟩ : Row)
      else r) := by
  induction rows with
  | nil => rfl
  | cons a t ih =>
    by_cases hma : Row.hasId m a = true
    · by_cases ha : Row.hasId id a = true
      · have : Row.hasId id ⟨a.id, a.content, a.nickname, a.likes + 1, a.created_at, a.ip_address⟩
            = true := by simpa [Row.hasId] using ha
        simp [List.find?_cons, hma, ha, this]
      · have : Row.hasId id ⟨a.id, a.content, a.nickname, a.likes + 1, a.created_at, a.ip_address⟩
            = false := by simpa [Row.hasId] using ha
        simp [List.find?_cons, hma, ha, this, ih]
    · by_cases ha : Row.hasId id a = true
      · simp [List.find?_cons, hma, ha]
      · simp [List.find?_cons, hma, ha, ih]

theorem selectById_bumpLikes_same {id : Int} {s : Store} {v : View}
    (h : selectById id s = some v) :
    selectById id (bumpLikes id s) = some ⟨v.id, v.content, v.nickname, v.likes + 1, v.time⟩ := by
  unfold selectById at h ⊢
  simp only [bumpLikes, find_bump]
  cases hf : s.rows.find? (Row.hasId id) with
  | none => simp [hf] at h
  | some r =>
    have hr : Row.hasId id r = true := List.find?_some hf
    simp only [hf, Option.map_some', Option.some.injEq] at h
    subst h
    simp [hr, Row.view]

theorem selectById_bumpLikes_other {id m : Int} (hm : m ≠ id) (s : Store) :
    selectById id (bumpLikes m s) = selectById id s := by
  unfold selectById
  simp only [bumpLikes, find_bump]
  cases hf : s.rows.find? (Row.hasId id) with
  | none => rfl
  | some r =>
    have hr : Row.hasId id r = true := List.find?_some hf
    have hmr : Row.hasId m r = false := by
      simp only [Row.hasId, beq_iff_eq, beq_eq_false_iff_ne] at hr ⊢
      omega
    simp [hmr]

theorem changes_eq_zero_iff (id : Int) (s : Store) :
    changes id s = 0 ↔ selectById id s = none := by
  simp [changes, selectById, List.filter_eq_nil_iff, List.find?_eq_none]

theorem selectById_eq_none_iff (id : Int) (s : Store) :
    selectById id s = none ↔ ∀ r ∈ s.rows, (r.id : Int) ≠ id := by
  simp [selectById, List.find?_eq_none, Row.hasId]

/-! ## Lemmas on the handlers -/

theorem trim_nil : trim [] = [] := rfl

theorem content_accepted {req : CreateReq} {c : Str} (hc : req.content = JsVal.str c)
    (h1 : 1 ≤ (trim c).length) :
    (!req.content.truthy || !req.content.isString) = false := by
  have hne : c ≠ [] := by
    rintro rfl
    simp [trim_nil] at h1
  cases c with
  | nil => exact absurd rfl hne
  | cons a t => simp [hc, JsVal.truthy, JsVal.isString]

theorem postHandler_calm (now stamp : Nat) (req : CreateReq) (c : Str) (s : Store)
    (hc : req.content = JsVal.str c) (h1 : 1 ≤ (trim c).length)
    (h2 : (trim c).length ≤ 200) :
    postHandler (Env.calm now stamp) req s =
      (⟨201, createResponse now true
          (Data.message ⟨nextId s, trim c, validNickname req.nickname, 0, stamp⟩)
          "留言发布成功"⟩,
        insertRow stamp (trim c) (validNickname req.nickname) (some (clientIP req)) s) := by
  have hb := content_accepted hc h1
  have hu : req.content.units = c := by simp [hc, JsVal.units]
  have h0 : ¬ (trim c).length = 0 := by omega
  have h200 : ¬ (trim c).length > 200 := by omega
  simp [postHandler, postTry, hb, hu, h0, h200, Env.calm, createMessage, catchAny,
    selectById_insertRow_new, Data.ofRow]

theorem postHandler_not_rejected (e : Env) (req : CreateReq) (c : Str) (s : Store)
    (hc : req.content = JsVal.str c) (h1 : 1 ≤ (trim c).length)
    (h2 : (trim c).length ≤ 200) :
    (postHandler e req s).1.status = 201 ∨ (postHandler e req s).1 = internalError e.now := by
  have hb := content_accepted hc h1
  have hu : req.content.units = c := by simp [hc, JsVal.units]
  have h0 : ¬ (trim c).length = 0 := by omega
  have h200 : ¬ (trim c).length > 200 := by omega
  simp only [postHandler, postTry, hb, hu, h0, h200, Bool.false_eq_true, if_false]
  cases hm : createMessage e.open1 e.stmt1 e.between e.stmt2 e.stamp (trim c)
      (validNickname req.nickname) (some (clientIP req)) s with
  | mk r s2 =>
    cases r with
    | ok v => simp [catchAny]
    | error err => simp [catchAny]

theorem getHandler_found {e : Env} {p : Str} {n : Int} {s : Store} {v : View}
    (hp : parseInt p = some n) (hn : 0 < n) (ho : e.open1 = none) (hs : e.stmt1 = none)
    (hv : selectById n s = some v) :
    getHandler e p s = (⟨200, createResponse e.now true (Data.message v) "获取留言成功"⟩, s) := by
  have hn2 : ¬ n ≤ 0 := by omega
  simp [getHandler, getTry, hp, hn2, getMessageById, ho, hs, hv, catchAny]

theorem getHandler_missing {e : Env} {p : Str} {n : Int} {s : Store}
    (hp : parseInt p = some n) (hn : 0 < n) (ho : e.open1 = none) (hs : e.stmt1 = none)
    (hv : selectById n s = none) :
    getHandler e p s = (notFound e.now, s) := by
  have hn2 : ¬ n ≤ 0 := by omega
  simp [getHandler, getTry, hp, hn2, getMessageById, ho, hs, hv, catchAny]

theorem validNickname_of_str {n : Str} (h1 : 1 ≤ (trim n).length)
    (h2 : (trim n).length ≤ 20) : validNickname (JsVal.str n) = trim n := by
  have hne : n ≠ [] := by
    rintro rfl
    simp [trim_nil] at h1
  cases n with
  | nil => exact absurd rfl hne
  | cons a t =>
    have : 0 < (trim (a :: t)).length := h1
    simp [validNickname, JsVal.truthy, JsVal.isString, JsVal.units, this, h2]

theorem validNickname_default {v : JsVal}
    (h : ∀ n, v = JsVal.str n → (trim n).length = 0 ∨ 20 < (trim n).length) :
    validNickname v = defaultNickname := by
  cases v with
  | str n =>
    rcases h n rfl with h0 | h20
    · simp [validNickname, JsVal.units, h0]
    · have : ¬ (trim n).length ≤ 20 := by omega
      simp [validNickname, JsVal.units, this]
  | _ => simp [validNickname, JsVal.truthy, JsVal.isString]

/-! ## Create: validation of the content -/

/-- C1. For every request body, every store and every environment (failing
driver calls included), the Create handler answers 400 with `success = false`
and `data = null` and returns the store unchanged whenever `content` is missing,
is not a string, is empty after trimming, or has 201 or more code units after
trimming; a List that follows sees what it saw before. -/
theorem post_rejects_bad_content (e : Env) (req : CreateReq) (s : Store)
    (h : req.content = JsVal.undefined ∨ req.content.isString = false ∨
      (trim req.content.units).length = 0 ∨ 201 ≤ (trim req.content.units).length) :
    (postHandler e req s).1.status = 400 ∧
    (postHandler e req s).1.body.success = false ∧
    (postHandler e req s).1.body.data = Data.null ∧
    (postHandler e req s).2 = s ∧
    ∀ e2 : Env, (listHandler e2 (postHandler e req s).2).1 = (listHandler e2 s).1 := by
  have key : ∃ msg, postHandler e req s = (⟨400, createResponse e.now false .null msg⟩, s) := by
    unfold postHandler postTry
    rcases h with h | h | h | h
    · simp [h, JsVal.truthy, catchAny]
    · simp [h, catchAny]
    · by_cases hb : (!req.content.truthy || !req.content.isString) = true
      · simp [hb, catchAny]
      · simp [hb, h, catchAny]
    · by_cases hb : (!req.content.truthy || !req.content.isString) = true
      · simp [hb, catchAny]
      · by_cases h0 : (trim req.content.units).length = 0
        · simp [hb, h0, catchAny]
        · have h2 : (trim req.content.units).length > 200 := by omega
          simp [hb, h0, h2, catchAny]
  obtain ⟨msg, hk⟩ := key
  simp [hk, createResponse]

/-- Witness of C1: the empty content `""` posted to the empty table. -/
theorem post_rejects_bad_content_witness :
    (trim (JsVal.str []).units).length = 0 ∧
    (postHandler (Env.calm 7 9) ⟨JsVal.str [], JsVal.undefined, none, none⟩ ⟨[], 0⟩).1.status
      = 400 ∧
    (postHandler (Env.calm 7 9) ⟨JsVal.str [], JsVal.undefined, none, none⟩ ⟨[], 0⟩).2
      = ⟨[], 0⟩ :=
  have h := post_rejects_bad_content (Env.calm 7 9)
    ⟨JsVal.str [], JsVal.undefined, none, none⟩ ⟨[], 0⟩ (Or.inr (Or.inr (Or.inl rfl)))
  ⟨rfl, h.1, h.2.2.2.1⟩

/-! ## Create followed by Get -/

/-- Counterexample to C2 as stated: the content `" hi "` (four code units, with
nickname `"bob"`) is accepted, and the record read back under the returned id
`1` holds `"hi"`, not the submitted text. -/
theorem create_get_exact_content_counterexample :
    (postHandler (Env.calm 0 0)
        ⟨JsVal.str [32, 104, 105, 32], JsVal.str [98, 111, 98], none, none⟩ ⟨[], 0⟩).1
      = ⟨201, createResponse 0 true (Data.message ⟨1, [104, 105], [98, 111, 98], 0, 0⟩)
          "留言发布成功"⟩ ∧
    (getHandler (Env.calm 0 0) [49]
        (postHandler (Env.calm 0 0)
          ⟨JsVal.str [32, 104, 105, 32], JsVal.str [98, 111, 98], none, none⟩ ⟨[], 0⟩).2).1
      = ⟨200, createResponse 0 true (Data.message ⟨1, [104, 105], [98, 111, 98], 0, 0⟩)
          "获取留言成功"⟩ ∧
    ([104, 105] : Str) ≠ [32, 104, 105, 32] := by
  refine ⟨?_, ?_, by decide⟩
  · rfl
  · rfl

/-- C2, amended. For every store and every Create request whose content is a
string of 1 to 200 code units after trimming, handled with no storage failure,
the answer is 201 with a record that Get-by-id (any path id that parses to the
returned id) returns again with status 200; its content is the submitted content
trimmed, its nickname is the supplied nickname trimmed when that is a string of 1
to 20 code units after trimming and the sentinel when no nickname or an empty or
blank one was supplied, and its likes are 0. -/
theorem create_then_get (now stamp now2 stamp2 : Nat) (req : CreateReq) (c : Str)
    (s : Store) (hc : req.content = JsVal.str c) (h1 : 1 ≤ (trim c).length)
    (h2 : (trim c).length ≤ 200) :
    ∃ v : View,
      (postHandler (Env.calm now stamp) req s).1
        = ⟨201, createResponse now true (Data.message v) "留言发布成功"⟩ ∧
      (∀ p : Str, parseInt p = some (v.id : Int) →
        (getHandler (Env.calm now2 stamp2) p (postHandler (Env.calm now stamp) req s).2).1
          = ⟨200, createResponse now2 true (Data.message v) "获取留言成功"⟩) ∧
      v.content = trim c ∧
      (trim c = c → v.content = c) ∧
      (∀ n : Str, req.nickname = JsVal.str n → 1 ≤ (trim n).length →
        (trim n).length ≤ 20 → v.nickname = trim n) ∧
      (req.nickname = JsVal.undefined → v.nickname = defaultNickname) ∧
      (∀ n : Str, req.nickname = JsVal.str n → (trim n).length = 0 →
        v.nickname = defaultNickname) ∧
      v.likes = 0 := by
  refine ⟨⟨nextId s, trim c, validNickname req.nickname, 0, stamp⟩, ?_, ?_, rfl, ?_, ?_, ?_, ?_,
    rfl⟩
  · rw [postHandler_calm now stamp req c s hc h1 h2]
  · intro p hp
    rw [postHandler_calm now stamp req c s hc h1 h2]
    have hpos : (0 : Int) < (nextId s : Int) := by
      have := nextId_pos s
      omega
    have := getHandler_found (e := Env.calm now2 stamp2) hp hpos rfl rfl
      (selectById_insertRow_new stamp (trim c) (validNickname req.nickname)
        (some (clientIP req)) s)
    simpa [Env.calm] using congrArg Prod.fst this
  · intro h
    exact h
  · intro n hn hn1 hn2
    show validNickname req.nickname = trim n
    rw [hn]
    exact validNickname_of_str hn1 hn2
  · intro hn
    show validNickname req.nickname = defaultNickname
    rw [hn]
    rfl
  · intro n hn h0
    show validNickname req.nickname = defaultNickname
    exact validNickname_default (fun m hm => by
      rw [hn] at hm
      cases hm
      exact Or.inl h0)

/-- Witness of C2 (amended): `"hello"` from `"alice"` posted to the empty table. -/
theorem create_then_get_witness :
    (1 ≤ (trim [104, 101, 108, 108, 111]).length ∧
      (trim [104, 101, 108, 108, 111]).length ≤ 200) ∧
    ∃ v : View,
      (postHandler (Env.calm 1 2)
          ⟨JsVal.str [104, 101, 108, 108, 111], JsVal.str [97, 108, 105, 99, 101], none, none⟩
          ⟨[], 0⟩).1
        = ⟨201, createResponse 1 true (Data.message v) "留言发布成功"⟩ ∧
      v.likes = 0 :=
  ⟨by decide,
    (create_then_get 1 2 3 4
      ⟨JsVal.str [104, 101, 108, 108, 111], JsVal.str [97, 108, 105, 99, 101], none, none⟩
      [104, 101, 108, 108, 111] ⟨[], 0⟩ rfl (by decide) (by decide)).imp
      (fun _ h => ⟨h.1, h.2.2.2.2.2.2.2⟩)⟩

/-! ## List: the order of the feed -/

theorem insertDesc_sublist (r : Row) (l : List Row) : l.Sublist (insertDesc r l) := by
  induction l with
  | nil => exact List.nil_sublist _
  | cons b t ih =>
    unfold insertDesc
    split
    · exact List.sublist_cons_self _ _
    · exact ih.cons₂ b

theorem orderBy_append_sublist (old new : List Row) :
    (orderByCreatedAtDesc new).Sublist (orderByCreatedAtDesc (old ++ new)) := by
  induction old with
  | nil => exact List.Sublist.refl _
  | cons a t ih => exact ih.trans (insertDesc_sublist a _)

theorem insertDesc_perm (r : Row) (l : List Row) : (insertDesc r l).Perm (r :: l) := by
  induction l with
  | nil => exact List.Perm.refl _
  | cons b t ih =>
    unfold insertDesc
    split
    · exact List.Perm.refl _
    · exact (ih.cons b).trans (List.Perm.swap r b t)

theorem orderBy_perm (l : List Row) : (orderByCreatedAtDesc l).Perm l := by
  induction l with
  | nil => exact List.Perm.refl _
  | cons a t ih => exact (insertDesc_perm a _).trans (ih.cons a)

theorem insertDesc_sorted (r : Row) (l : List Row)
    (h : l.Pairwise (fun a b => b.created_at ≤ a.created_at)) :
    (insertDesc r l).Pairwise (fun a b => b.created_at ≤ a.created_at) := by
  induction l with
  | nil => simp [insertDesc]
  | cons b t ih =>
    unfold insertDesc
    have hb := List.pairwise_cons.mp h
    split
    · rename_i hle
      refine List.pairwise_cons.mpr ⟨?_, h⟩
      intro x hx
      rcases List.mem_cons.mp hx with rfl | hx
      · exact hle
      · exact Nat.le_trans (hb.1 x hx) hle
    · rename_i hlt
      refine List.pairwise_cons.mpr ⟨?_, ih hb.2⟩
      intro x hx
      rcases List.mem_cons.mp ((insertDesc_perm r t).subset hx) with rfl | hx
      · omega
      · exact hb.1 x hx

theorem orderBy_sorted (l : List Row) :
    (orderByCreatedAtDesc l).Pairwise (fun a b => b.created_at ≤ a.created_at) := by
  induction l with
  | nil => exact List.Pairwise.nil
  | cons a t ih => exact insertDesc_sorted a _ ih

theorem insertDesc_oldest (r : Row) (l : List Row)
    (h : ∀ b ∈ l, r.created_at < b.created_at) : insertDesc r l = l ++ [r] := by
  induction l with
  | nil => rfl
  | cons b t ih =>
    have hb : ¬ b.created_at ≤ r.created_at := by
      have := h b (List.mem_cons_self _ _)
      omega
    simp [insertDesc, hb, ih (fun x hx => h x (List.mem_cons_of_mem _ hx))]

theorem orderBy_increasing (l : List Row)
    (h : l.Pairwise (fun a b => a.created_at < b.created_at)) :
    orderByCreatedAtDesc l = l.reverse := by
  induction l with
  | nil => rfl
  | cons a t ih =>
    have ha := List.pairwise_cons.mp h
    have : ∀ b ∈ orderByCreatedAtDesc t, a.created_at < b.created_at := by
      intro b hb
      exact ha.1 b ((orderBy_perm t).subset hb)
    rw [orderByCreatedAtDesc, insertDesc_oldest a _ this, ih ha.2, List.reverse_cons]

theorem listHandler_ok {e : Env} (ho : e.open1 = none) (hs : e.stmt1 = none) (s : Store) :
    listHandler e s =
      (⟨200, createResponse e.now true
          (Data.messages ((orderByCreatedAtDesc s.rows).map Row.view)) "获取留言列表成功"⟩, s) := by
  simp [listHandler, listTry, getAllMessages, ho, hs, catchAny]

theorem run_createSteps (cs : List (Nat × Nat × CreateReq)) :
    ∀ s : Store, (∀ c ∈ cs, ValidContent c.2.2) →
    ∃ rs : List Row,
      (run (createSteps cs) s).rows = s.rows ++ rs ∧
      (responses (createSteps cs) s).map (fun r => (r.status, r.body.data))
        = rs.map (fun r => (201, Data.message r.view)) ∧
      rs.map Row.created_at = cs.map (fun c => c.2.1) := by
  induction cs with
  | nil =>
    intro s _
    exact ⟨[], by simp [createSteps, run], by simp [createSteps, responses], rfl⟩
  | cons c t ih =>
    intro s hv
    obtain ⟨body, hbody, h1, h2⟩ := hv c (List.mem_cons_self _ _)
    have hstep := postHandler_calm c.1 c.2.1 c.2.2 body s hbody h1 h2
    obtain ⟨rs, hrows, hresp, hst⟩ :=
      ih (insertRow c.2.1 (trim body) (validNickname c.2.2.nickname)
        (some (clientIP c.2.2)) s) (fun x hx => hv x (List.mem_cons_of_mem _ hx))
    refine ⟨⟨nextId s, trim body, validNickname c.2.2.nickname, 0, c.2.1,
      some (clientIP c.2.2)⟩ :: rs, ?_, ?_, ?_⟩
    · simp only [createSteps, List.map_cons, run, handle, hstep]
      simp only [createSteps] at hrows
      rw [hrows]
      simp [insertRow]
    · simp only [createSteps, List.map_cons, responses, handle, hstep]
      simp only [createSteps] at hresp
      rw [hresp]
      simp [createResponse, Row.view]
    · simp [hst]

/-- Counterexample to C3 as stated: two Creates that fall in the same second
(`CURRENT_TIMESTAMP` 5 for both) on the empty table return records 1 and 2, and
the List that follows returns record 1 before record 2, the insertion order and
not its reverse. -/
theorem list_reverse_insertion_counterexample :
    (responses (createSteps
        [(0, 5, ⟨JsVal.str [97], JsVal.undefined, none, none⟩),
         (0, 5, ⟨JsVal.str [98], JsVal.undefined, none, none⟩)]) ⟨[], 0⟩).map
        (fun r => (r.status, r.body.data))
      = [(201, Data.message ⟨1, [97], defaultNickname, 0, 5⟩),
         (201, Data.message ⟨2, [98], defaultNickname, 0, 5⟩)] ∧
    (listHandler (Env.calm 0 0) (run (createSteps
        [(0, 5, ⟨JsVal.str [97], JsVal.undefined, none, none⟩),
         (0, 5, ⟨JsVal.str [98], JsVal.undefined, none, none⟩)]) ⟨[], 0⟩)).1.body.data
      = Data.messages [⟨1, [97], defaultNickname, 0, 5⟩, ⟨2, [98], defaultNickname, 0, 5⟩] ∧
    [(⟨1, [97], defaultNickname, 0, 5⟩ : View), ⟨2, [98], defaultNickname, 0, 5⟩]
      ≠ [(⟨1, [97], defaultNickname, 0, 5⟩ : View), ⟨2, [98], defaultNickname, 0, 5⟩].reverse := by
  refine ⟨rfl, rfl, by decide⟩

/-- C3, amended. For every store, every N and every sequence of N Create
requests with valid content handled with no storage failure, the N Creates
answer 201 with records `vs`, and a following List (no storage failure) answers
200 with all records of the table, sorted by creation time descending. When the
creation times of the N Creates are strictly increasing, the N records appear in
the List in reverse insertion order, and on a table that was empty the List is
exactly `vs` reversed. -/
theorem list_after_creates (cs : List (Nat × Nat × CreateReq)) (s : Store) (e : Env)
    (ho : e.open1 = none) (hs : e.stmt1 = none)
    (hv : ∀ c ∈ cs, ValidContent c.2.2) :
    ∃ vs shown : List View,
      (responses (createSteps cs) s).map (fun r => (r.status, r.body.data))
        = vs.map (fun v => (201, Data.message v)) ∧
      vs.length = cs.length ∧
      (listHandler e (run (createSteps cs) s)).1
        = ⟨200, createResponse e.now true (Data.messages shown) "获取留言列表成功"⟩ ∧
      shown.Pairwise (fun a b => b.time ≤ a.time) ∧
      shown.Perm (s.rows.map Row.view ++ vs) ∧
      (cs.Pairwise (fun a b => a.2.1 < b.2.1) →
        vs.reverse.Sublist shown ∧ (s.rows = [] → shown = vs.reverse)) := by
  obtain ⟨rs, hrows, hresp, hst⟩ := run_createSteps cs s hv
  refine ⟨rs.map Row.view, (orderByCreatedAtDesc (s.rows ++ rs)).map Row.view, ?_, ?_, ?_, ?_,
    ?_, ?_⟩
  · rw [hresp, List.map_map]
    rfl
  · have := congrArg List.length hst
    simpa using this
  · rw [listHandler_ok ho hs, hrows]
  · rw [List.pairwise_map]
    exact orderBy_sorted _
  · have := (orderBy_perm (s.rows ++ rs)).map Row.view
    simpa using this
  · intro hinc
    have hrs : rs.Pairwise (fun a b => a.created_at < b.created_at) := by
      have h1 : (cs.map (fun c => c.2.1)).Pairwise (· < ·) := List.pairwise_map.mpr hinc
      rw [← hst] at h1
      exact List.pairwise_map.mp h1
    have hrev := orderBy_increasing rs hrs
    constructor
    · have := (orderBy_append_sublist s.rows rs).map Row.view
      rw [hrev, List.map_reverse] at this
      exact this
    · intro hnil
      rw [hnil, List.nil_append, hrev, List.map_reverse]

/-- Witness of C3 (amended): two Creates one second apart on the empty table. -/
theorem list_after_creates_witness :
    (∀ c ∈ [((0 : Nat), (5 : Nat), (⟨JsVal.str [97], JsVal.undefined, none, none⟩ : CreateReq)),
        (0, 6, ⟨JsVal.str [98], JsVal.undefined, none, none⟩)], ValidContent c.2.2) ∧
    ∃ vs shown : List View,
      vs.length = 2 ∧
      (listHandler (Env.calm 9 9) (run (createSteps
          [(0, 5, ⟨JsVal.str [97], JsVal.undefined, none, none⟩),
           (0, 6, ⟨JsVal.str [98], JsVal.undefined, none, none⟩)]) ⟨[], 0⟩)).1
        = ⟨200, createResponse 9 true (Data.messages shown) "获取留言列表成功"⟩ ∧
      shown = vs.reverse :=
  have hv : ∀ c ∈ [((0 : Nat), (5 : Nat),
        (⟨JsVal.str [97], JsVal.undefined, none, none⟩ : CreateReq)),
        (0, 6, ⟨JsVal.str [98], JsVal.undefined, none, none⟩)], ValidContent c.2.2 := by
    intro c hc
    simp only [List.mem_cons, List.mem_singleton, List.not_mem_nil, or_false] at hc
    rcases hc with rfl | rfl
    · exact ⟨[97], rfl, by decide, by decide⟩
    · exact ⟨[98], rfl, by decide, by decide⟩
  ⟨hv, by
    obtain ⟨vs, shown, _, hlen, hlist, _, _, hrev⟩ :=
      list_after_creates
        [(0, 5, ⟨JsVal.str [97], JsVal.undefined, none, none⟩),
         (0, 6, ⟨JsVal.str [98], JsVal.undefined, none, none⟩)] ⟨[], 0⟩ (Env.calm 9 9) rfl rfl hv
    exact ⟨vs, shown, hlen, hlist, (hrev (by simp)).2 rfl⟩⟩

/-! ## The effect of each handler on the store -/

theorem listHandler_store (e : Env) (s : Store) : (listHandler e s).2 = s := by
  unfold listHandler listTry
  cases getAllMessages e.open1 e.stmt1 s <;> rfl

theorem getHandler_store (e : Env) (p : Str) (s : Store) : (getHandler e p s).2 = s := by
  unfold getHandler getTry
  cases parseInt p with
  | none => rfl
  | some m =>
    by_cases hm : m ≤ 0
    · simp [hm, catchAny]
    · simp only [hm, if_false]
      cases hg : getMessageById e.open1 e.stmt1 m s with
      | error err => rfl
      | ok o => cases o <;> rfl

theorem postHandler_store (e : Env) (req : CreateReq) (s : Store) :
    (postHandler e req s).2 = s ∨
    ∃ c nick ip, (postHandler e req s).2 = e.between (insertRow e.stamp c nick ip s) := by
  unfold postHandler postTry
  by_cases hb : (!req.content.truthy || !req.content.isString) = true
  · left
    simp [hb, catchAny]
  · by_cases h0 : (trim req.content.units).length = 0
    · left
      simp [hb, h0, catchAny]
    · by_cases h2 : (trim req.content.units).length > 200
      · left
        simp [hb, h0, h2, catchAny]
      · simp only [hb, h0, h2, if_false]
        unfold createMessage
        cases e.open1 with
        | some err => left; rfl
        | none =>
          cases e.stmt1 with
          | some err => left; rfl
          | none =>
            right
            refine ⟨trim req.content.units, validNickname req.nickname, some (clientIP req), ?_⟩
            cases e.stmt2 <;> rfl

theorem deleteHandler_store (e : Env) (p : Str) (s : Store) :
    (deleteHandler e p s).2 = s ∨ (deleteHandler e p s).2 = e.between s ∨
    ∃ m, parseInt p = some m ∧ (deleteHandler e p s).2 = deleteRows m (e.between s) := by
  unfold deleteHandler deleteTry
  cases hp : parseInt p with
  | none => left; rfl
  | some m =>
    by_cases hm : m ≤ 0
    · left
      simp [hm, catchAny]
    · simp only [hm, if_false]
      cases hg : getMessageById e.open1 e.stmt1 m s with
      | error err => left; rfl
      | ok o =>
        cases o with
        | none => left; rfl
        | some v =>
          unfold deleteMessage
          cases e.open2 with
          | some err => right; left; rfl
          | none =>
            cases e.stmt2 with
            | some err => right; left; rfl
            | none =>
              right
              right
              refine ⟨m, rfl, ?_⟩
              by_cases hc : changes m (e.between s) > 0
              · simp [hc, catchAny]
              · simp [hc, catchAny]

theorem likeHandler_store (e : Env) (p : Str) (s : Store) :
    (likeHandler e p s).2 = s ∨
    ∃ m, parseInt p = some m ∧ (likeHandler e p s).2 = e.between (bumpLikes m s) := by
  unfold likeHandler likeTry
  cases hp : parseInt p with
  | none => left; rfl
  | some m =>
    by_cases hm : m ≤ 0
    · left
      simp [hm, catchLike]
    · simp only [hm, if_false]
      unfold likeMessage
      cases e.open1 with
      | some err =>
        left
        by_cases hx : err = notFoundText <;> simp [catchLike, hx]
      | none =>
        cases e.stmt1 with
        | some err =>
          left
          by_cases hx : err = notFoundText <;> simp [catchLike, hx]
        | none =>
          by_cases hc : changes m s = 0
          · left
            simp [hc, catchLike]
          · right
            refine ⟨m, rfl, ?_⟩
            cases e.stmt2 with
            | some err => by_cases hx : err = notFoundText <;> simp [hc, catchLike, hx]
            | none => simp [hc, catchLike]

theorem likeHandler_ok {e : Env} {p : Str} {n : Int} {s : Store} {v : View}
    (hp : parseInt p = some n) (hn : 0 < n) (hf : NoFault e) (hb : e.between = id)
    (hv : selectById n s = some v) :
    likeHandler e p s =
      (⟨200, createResponse e.now true
          (Data.message ⟨v.id, v.content, v.nickname, v.likes + 1, v.time⟩) "点赞成功"⟩,
        bumpLikes n s) := by
  have hn2 : ¬ n ≤ 0 := by omega
  have hc : ¬ changes n s = 0 := by
    rw [changes_eq_zero_iff, hv]
    simp
  obtain ⟨h1, h2, _, h4⟩ := hf
  simp [likeHandler, likeTry, hp, hn2, likeMessage, h1, h2, h4, hb, hc,
    selectById_bumpLikes_same hv, catchLike, Data.ofRow]

theorem isLikeOf_addresses {n : Int} {r : Request} (h : addresses n r = false) :
    isLikeOf n r = false := by
  cases r <;> simp_all [addresses, isLikeOf]

theorem selectById_handle_elsewhere {e : Env} {r : Request} {s : Store} {n : Int} {v : View}
    (hb : e.between = id) (ha : addresses n r = false) (hv : selectById n s = some v) :
    selectById n (handle e r s).2 = some v := by
  cases r with
  | list => simpa [handle, listHandler_store] using hv
  | get p => simpa [handle, getHandler_store] using hv
  | create req =>
    rcases postHandler_store e req s with h | ⟨c, nick, ip, h⟩
    · simpa [handle, h] using hv
    · simp only [handle, h, hb, id]
      exact selectById_insertRow_old _ _ _ _ hv
  | delete p =>
    rcases deleteHandler_store e p s with h | h | ⟨m, hp, h⟩
    · simpa [handle, h] using hv
    · simpa [handle, h, hb] using hv
    · have hmn : m ≠ n := by
        rintro rfl
        simp [addresses, hp] at ha
      simp only [handle, h, hb, id]
      rw [selectById_deleteRows_other hmn]
      exact hv
  | like p =>
    rcases likeHandler_store e p s with h | ⟨m, hp, h⟩
    · simpa [handle, h] using hv
    · have hmn : m ≠ n := by
        rintro rfl
        simp [addresses, hp] at ha
      simp only [handle, h, hb, id]
      rw [selectById_bumpLikes_other hmn]
      exact hv

/-! ## Like: the counter -/

theorem likes_after_trace_aux (n : Int) (hn : 0 < n) (tr : List (Env × Request)) :
    ∀ (s : Store) (v : View), selectById n s = some v →
    (∀ st ∈ tr, st.1.between = id ∧
      ((isLikeOf n st.2 = true ∧ NoFault st.1) ∨ addresses n st.2 = false)) →
    selectById n (run tr s)
      = some ⟨v.id, v.content, v.nickname,
          v.likes + tr.countP (fun st => isLikeOf n st.2), v.time⟩ ∧
    likeReports n tr s
      = (List.range (tr.countP (fun st => isLikeOf n st.2))).map
          (fun k => (200, some (v.likes + k + 1))) := by
  induction tr with
  | nil =>
    intro s v hv _
    simpa [run, likeReports] using hv
  | cons st t ih =>
    intro s v hv htr
    obtain ⟨e, r⟩ := st
    have hst := htr (e, r) (List.mem_cons_self _ _)
    have ht : ∀ st ∈ t, st.1.between = id ∧
        ((isLikeOf n st.2 = true ∧ NoFault st.1) ∨ addresses n st.2 = false) :=
      fun x hx => htr x (List.mem_cons_of_mem _ hx)
    by_cases hl : isLikeOf n r = true
    · have hnf : NoFault e := by
        rcases hst.2 with h | h
        · exact h.2
        · rw [isLikeOf_addresses h] at hl
          cases hl
      cases r with
      | like p =>
        have hp : parseInt p = some n := by simpa [isLikeOf] using hl
        have hstep := likeHandler_ok hp hn hnf hst.1 hv
        obtain ⟨h1, h2⟩ := ih (bumpLikes n s) _ (selectById_bumpLikes_same hv) ht
        constructor
        · simp only [run, handle, hstep, h1, List.countP_cons, hl, if_true]
          congr 2
          omega
        · simp only [likeReports, hl, if_true, handle, hstep, h2, List.countP_cons,
            List.range_succ_eq_map, List.map_cons, List.map_map, likesReported,
            createResponse]
          congr 1
          apply List.map_congr_left
          intro k _
          simp only [Function.comp, Prod.mk.injEq, Option.some.injEq, true_and]
          omega
      | _ => simp [isLikeOf] at hl
    · have hl2 : isLikeOf n r = false := by simpa using hl
      have ha : addresses n r = false := by
        rcases hst.2 with h | h
        · rw [h.1] at hl2
          cases hl2
        · exact h
      have hframe := selectById_handle_elsewhere hst.1 ha hv
      obtain ⟨h1, h2⟩ := ih (handle e r s).2 v hframe ht
      constructor
      · simpa [run, List.countP_cons, hl2] using h1
      · simpa [likeReports, List.countP_cons, hl2] using h2

/-- C4. Let record `n` (a positive id) be in the store with `likes = L`, and let
a sequence of requests be handled one after the other in which every request
that addresses `n` is a successful Like of `n` (no storage failure), the others
being any requests that address other records or none. With `K` the number of
those Likes, the record afterwards has `likes = L + K` and is otherwise as it
was; the Likes answered 200 and reported `L + 1, L + 2, ..., L + K` in this
order, so no report is lower than an earlier one; a freshly created record
(`L = 0`) ends with `likes = K`. -/
theorem likes_after_trace (n : Int) (hn : 0 < n) (tr : List (Env × Request)) (s : Store)
    (v : View) (hv : selectById n s = some v)
    (htr : ∀ st ∈ tr, st.1.between = id ∧
      ((isLikeOf n st.2 = true ∧ NoFault st.1) ∨ addresses n st.2 = false)) :
    selectById n (run tr s)
      = some ⟨v.id, v.content, v.nickname,
          v.likes + tr.countP (fun st => isLikeOf n st.2), v.time⟩ ∧
    likeReports n tr s
      = (List.range (tr.countP (fun st => isLikeOf n st.2))).map
          (fun k => (200, some (v.likes + k + 1))) ∧
    (likeReports n tr s).Pairwise
      (fun a b => ∃ x y, a.2 = some x ∧ b.2 = some y ∧ x ≤ y) ∧
    (v.likes = 0 → selectById n (run tr s)
      = some ⟨v.id, v.content, v.nickname, tr.countP (fun st => isLikeOf n st.2), v.time⟩) := by
  obtain ⟨h1, h2⟩ := likes_after_trace_aux n hn tr s v hv htr
  refine ⟨h1, h2, ?_, ?_⟩
  · rw [h2, List.pairwise_map]
    refine (List.pairwise_lt_range _).imp ?_
    intro a b hab
    exact ⟨v.likes + a + 1, v.likes + b + 1, rfl, rfl, by omega⟩
  · intro h0
    rw [h1, h0, Nat.zero_add]

/-- Witness of C4: record 1, freshly created with content `"hi"`, is liked, a
second record is created, and record 1 is liked again. -/
theorem likes_after_trace_witness :
    selectById 1 (postHandler (Env.calm 0 5) ⟨JsVal.str [104, 105], JsVal.undefined, none, none⟩
        ⟨[], 0⟩).2 = some ⟨1, [104, 105], defaultNickname, 0, 5⟩ ∧
    selectById 1
        (run [(Env.calm 1 6, Request.like [49]),
              (Env.calm 2 7, Request.create ⟨JsVal.str [98], JsVal.undefined, none, none⟩),
              (Env.calm 3 8, Request.like [49])]
          (postHandler (Env.calm 0 5) ⟨JsVal.str [104, 105], JsVal.undefined, none, none⟩
            ⟨[], 0⟩).2)
      = some ⟨1, [104, 105], defaultNickname, 2, 5⟩ :=
  ⟨rfl,
    (likes_after_trace 1 (by decide)
      [(Env.calm 1 6, Request.like [49]),
       (Env.calm 2 7, Request.create ⟨JsVal.str [98], JsVal.undefined, none, none⟩),
       (Env.calm 3 8, Request.like [49])]
      (postHandler (Env.calm 0 5) ⟨JsVal.str [104, 105], JsVal.undefined, none, none⟩ ⟨[], 0⟩).2
      ⟨1, [104, 105], defaultNickname, 0, 5⟩ rfl
      (by
        intro st hst
        simp only [List.mem_cons, List.mem_singleton, List.not_mem_nil, or_false] at hst
        rcases hst with rfl | rfl | rfl
        · exact ⟨rfl, Or.inl ⟨rfl, rfl, rfl, rfl, rfl⟩⟩
        · exact ⟨rfl, Or.inr rfl⟩
        · exact ⟨rfl, Or.inl ⟨rfl, rfl, rfl, rfl, rfl⟩⟩)).1⟩

/-! ## Delete -/

theorem deleteHandler_ok {e : Env} {p : Str} {n : Int} {s : Store} {v : View}
    (hp : parseInt p = some n) (hn : 0 < n) (hf : NoFault e) (hb : e.between = id)
    (hv : selectById n s = some v) :
    deleteHandler e p s =
      (⟨200, createResponse e.now true (Data.deleted n) "留言删除成功"⟩, deleteRows n s) := by
  have hn2 : ¬ n ≤ 0 := by omega
  have hc : changes n s > 0 := by
    have : ¬ changes n s = 0 := by
      rw [changes_eq_zero_iff, hv]
      simp
    omega
  obtain ⟨h1, h2, h3, h4⟩ := hf
  simp [deleteHandler, deleteTry, hp, hn2, getMessageById, deleteMessage, h1, h2, h3, h4, hb,
    hv, hc, catchAny]

theorem deleteHandler_missing {e : Env} {p : Str} {n : Int} {s : Store}
    (hp : parseInt p = some n) (hn : 0 < n) (ho : e.open1 = none) (hs : e.stmt1 = none)
    (hv : selectById n s = none) :
    deleteHandler e p s = (notFound e.now, s) := by
  have hn2 : ¬ n ≤ 0 := by omega
  simp [deleteHandler, deleteTry, hp, hn2, getMessageById, ho, hs, hv, catchAny]

theorem selectById_of_mem {n : Int} {s : Store} (h : ∃ r ∈ s.rows, (r.id : Int) = n) :
    ∃ v, selectById n s = some v := by
  cases hsel : selectById n s with
  | some v => exact ⟨v, rfl⟩
  | none =>
    obtain ⟨r, hr, hid⟩ := h
    exact absurd hid ((selectById_eq_none_iff n s).mp hsel r hr)

/-- C5. For every store and every id present in it (a positive rowid, written
as any path id that parses to it), Delete with no storage failure answers 200
with `success = true` and `data = {id}`; a second Delete of the same id and a Get
of the same id right after both answer 404 with `success = false`, `data = null`
and the not-found message. -/
theorem delete_then_not_found (now stamp now2 stamp2 now3 stamp3 : Nat) (p : Str) (n : Int)
    (s : Store) (hp : parseInt p = some n) (hn : 0 < n)
    (hmem : ∃ r ∈ s.rows, (r.id : Int) = n) :
    (deleteHandler (Env.calm now stamp) p s).1
      = ⟨200, ⟨true, Data.deleted n, "留言删除成功", now⟩⟩ ∧
    (deleteHandler (Env.calm now2 stamp2) p (deleteHandler (Env.calm now stamp) p s).2).1
      = ⟨404, ⟨false, Data.null, "留言不存在", now2⟩⟩ ∧
    (getHandler (Env.calm now3 stamp3) p (deleteHandler (Env.calm now stamp) p s).2).1
      = ⟨404, ⟨false, Data.null, "留言不存在", now3⟩⟩ := by
  obtain ⟨v, hv⟩ := selectById_of_mem hmem
  have h1 := deleteHandler_ok (e := Env.calm now stamp) hp hn ⟨rfl, rfl, rfl, rfl⟩ rfl hv
  have hgone := selectById_deleteRows_same n s
  have h2 := deleteHandler_missing (e := Env.calm now2 stamp2) hp hn rfl rfl hgone
  have h3 := getHandler_missing (e := Env.calm now3 stamp3) hp hn rfl rfl hgone
  rw [h1]
  refine ⟨rfl, ?_, ?_⟩
  · rw [h2]
    rfl
  · rw [h3]
    rfl

/-- Witness of C5: record 1 of a one-row table, deleted under the path id `"1"`. -/
theorem delete_then_not_found_witness :
    (parseInt [49] = some 1 ∧
      ∃ r ∈ (⟨[⟨1, [104, 105], defaultNickname, 0, 5, none⟩], 1⟩ : Store).rows,
        (r.id : Int) = 1) ∧
    (deleteHandler (Env.calm 1 0) [49] ⟨[⟨1, [104, 105], defaultNickname, 0, 5, none⟩], 1⟩).1
      = ⟨200, ⟨true, Data.deleted 1, "留言删除成功", 1⟩⟩ :=
  ⟨⟨rfl, ⟨_, List.mem_singleton.mpr rfl, rfl⟩⟩,
    (delete_then_not_found 1 0 2 0 3 0 [49] 1
      ⟨[⟨1, [104, 105], defaultNickname, 0, 5, none⟩], 1⟩ rfl (by decide)
      ⟨_, List.mem_singleton.mpr rfl, rfl⟩).1⟩

/-! ## The path id -/

/-- C6. For Get-by-id, Delete and Like alike, and for every store and every
environment (failing driver calls included): when the path id does not parse as
an integer (as `'abc'` and `''`) or parses to a value that is not positive (as
`'0'` and `'-3'`), the handler answers 400 with `success = false` and
`data = null`, the same answer whatever the store holds, and returns the store
unchanged. -/
theorem invalid_id_rejected (e : Env) (p : Str) (s : Store)
    (h : parseInt p = none ∨ ∃ n, parseInt p = some n ∧ n ≤ 0) :
    getHandler e p s = (⟨400, ⟨false, Data.null, "无效的留言ID", e.now⟩⟩, s) ∧
    deleteHandler e p s = (⟨400, ⟨false, Data.null, "无效的留言ID", e.now⟩⟩, s) ∧
    likeHandler e p s = (⟨400, ⟨false, Data.null, "无效的留言ID", e.now⟩⟩, s) ∧
    parseInt [97, 98, 99] = none ∧ parseInt [] = none ∧
    parseInt [48] = some 0 ∧ parseInt [45, 51] = some (-3) := by
  refine ⟨?_, ?_, ?_, rfl, rfl, rfl, rfl⟩
  · rcases h with h | ⟨n, h, hn⟩
    · simp [getHandler, getTry, h, catchAny, invalidId, createResponse]
    · simp [getHandler, getTry, h, hn, catchAny, invalidId, createResponse]
  · rcases h with h | ⟨n, h, hn⟩
    · simp [deleteHandler, deleteTry, h, catchAny, invalidId, createResponse]
    · simp [deleteHandler, deleteTry, h, hn, catchAny, invalidId, createResponse]
  · rcases h with h | ⟨n, h, hn⟩
    · simp [likeHandler, likeTry, h, catchLike, invalidId, createResponse]
    · simp [likeHandler, likeTry, h, hn, catchLike, invalidId, createResponse]

/-- Witness of C6: the path id `'-3'` on a one-row table whose driver fails. -/
theorem invalid_id_rejected_witness :
    (parseInt [45, 51] = none ∨ ∃ n, parseInt [45, 51] = some n ∧ n ≤ 0) ∧
    likeHandler ⟨4, 0, some "SQLITE_CANTOPEN", none, id, none, none⟩ [45, 51]
        ⟨[⟨1, [104, 105], defaultNickname, 0, 5, none⟩], 1⟩
      = (⟨400, ⟨false, Data.null, "无效的留言ID", 4⟩⟩,
          ⟨[⟨1, [104, 105], defaultNickname, 0, 5, none⟩], 1⟩) :=
  ⟨Or.inr ⟨-3, rfl, by decide⟩,
    (invalid_id_rejected ⟨4, 0, some "SQLITE_CANTOPEN", none, id, none, none⟩ [45, 51]
      ⟨[⟨1, [104, 105], defaultNickname, 0, 5, none⟩], 1⟩
      (Or.inr ⟨-3, rfl, by decide⟩)).2.2.1⟩

/-! ## Create: the nickname -/

theorem postHandler_status_ne_400 (e : Env) (req : CreateReq) (s : Store)
    (hv : ValidContent req) : (postHandler e req s).1.status ≠ 400 := by
  obtain ⟨c, hc, h1, h2⟩ := hv
  rcases postHandler_not_rejected e req c s hc h1 h2 with h | h
  · rw [h]
    decide
  · rw [h]
    simp [internalError]

theorem postHandler_calm_rows (now stamp : Nat) (req : CreateReq) (s : Store)
    (hv : ValidContent req) :
    (postHandler (Env.calm now stamp) req s).1.status = 201 ∧
    (postHandler (Env.calm now stamp) req s).2.rows
      = s.rows ++ [⟨nextId s, trim req.content.units, validNickname req.nickname, 0, stamp,
          some (clientIP req)⟩] := by
  obtain ⟨c, hc, h1, h2⟩ := hv
  have hu : req.content.units = c := by simp [hc, JsVal.units]
  rw [postHandler_calm now stamp req c s hc h1 h2, hu]
  exact ⟨rfl, rfl⟩

/-- Counterexample to C8 as stated: content `"hi"` with a nickname of 21 letters
`a` is answered 201, not 400, and a row is created, holding the sentinel
nickname. -/
theorem long_nickname_rejected_counterexample :
    (List.replicate 21 97).length = 21 ∧
    (postHandler (Env.calm 0 5)
        ⟨JsVal.str [104, 105], JsVal.str (List.replicate 21 97), none, none⟩ ⟨[], 0⟩).1.status
      = 201 ∧
    (postHandler (Env.calm 0 5)
        ⟨JsVal.str [104, 105], JsVal.str (List.replicate 21 97), none, none⟩ ⟨[], 0⟩).2.rows
      = [⟨1, [104, 105], defaultNickname, 0, 5, some unknownIP⟩] := by
  refine ⟨rfl, rfl, rfl⟩

/-- C8, amended. A nickname of 21 or more code units after trimming is not a
validation failure: for every Create request whose content is valid and whose
nickname is such a string, the handler answers 201 when no storage call fails
and appends exactly one row, whose nickname is the sentinel; in no environment
does it answer 400. -/
theorem long_nickname_defaulted (now stamp : Nat) (req : CreateReq) (s : Store) (n : Str)
    (hv : ValidContent req) (hn : req.nickname = JsVal.str n)
    (h21 : 21 ≤ (trim n).length) :
    (postHandler (Env.calm now stamp) req s).1.status = 201 ∧
    (postHandler (Env.calm now stamp) req s).2.rows
      = s.rows ++ [⟨nextId s, trim req.content.units, defaultNickname, 0, stamp,
          some (clientIP req)⟩] ∧
    (∀ e : Env, (postHandler e req s).1.status ≠ 400) := by
  obtain ⟨hst, hrows⟩ := postHandler_calm_rows now stamp req s hv
  have hd : validNickname req.nickname = defaultNickname := by
    apply validNickname_default
    intro m hm
    rw [hn] at hm
    cases hm
    exact Or.inr (by omega)
  rw [hd] at hrows
  exact ⟨hst, hrows, fun e => postHandler_status_ne_400 e req s hv⟩

/-- Witness of C8 (amended): content `"hi"` with a nickname of 21 letters `a`. -/
theorem long_nickname_defaulted_witness :
    (ValidContent ⟨JsVal.str [104, 105], JsVal.str (List.replicate 21 97), none, none⟩ ∧
      21 ≤ (trim (List.replicate 21 97)).length) ∧
    (postHandler (Env.calm 0 5)
        ⟨JsVal.str [104, 105], JsVal.str (List.replicate 21 97), none, none⟩ ⟨[], 0⟩).1.status
      = 201 :=
  have hv : ValidContent
      ⟨JsVal.str [104, 105], JsVal.str (List.replicate 21 97), none, none⟩ :=
    ⟨[104, 105], rfl, by decide, by decide⟩
  ⟨⟨hv, by decide⟩,
    (long_nickname_defaulted 0 5
      ⟨JsVal.str [104, 105], JsVal.str (List.replicate 21 97), none, none⟩ ⟨[], 0⟩
      (List.replicate 21 97) hv rfl (by decide)).1⟩

/-! ## Like of an absent record -/

/-- C9. For every store and every positive id with no row in it (written as
any path id that parses to it, such as `999999`), Like, when the connection and
the update do not fail, answers 404 with `success = false`, `data = null` and the
not-found message, and returns the store unchanged, so no record's likes
change. -/
theorem like_absent_not_found (e : Env) (p : Str) (n : Int) (s : Store)
    (hp : parseInt p = some n) (hn : 0 < n) (habs : ∀ r ∈ s.rows, (r.id : Int) ≠ n)
    (ho : e.open1 = none) (hs : e.stmt1 = none) :
    likeHandler e p s = (⟨404, ⟨false, Data.null, "留言不存在", e.now⟩⟩, s) ∧
    (likeHandler e p s).2.rows.map Row.likes = s.rows.map Row.likes := by
  have hn2 : ¬ n ≤ 0 := by omega
  have hc : changes n s = 0 := (changes_eq_zero_iff n s).mpr ((selectById_eq_none_iff n s).mpr habs)
  have key : likeHandler e p s = (⟨404, ⟨false, Data.null, "留言不存在", e.now⟩⟩, s) := by
    simp [likeHandler, likeTry, hp, hn2, likeMessage, ho, hs, hc, catchLike, notFound,
      createResponse, notFoundText]
  exact ⟨key, by rw [key]⟩

/-- Witness of C9: the path id `999999` on a table whose only row has id 1. -/
theorem like_absent_not_found_witness :
    (parseInt [57, 57, 57, 57, 57, 57] = some 999999 ∧
      ∀ r ∈ (⟨[⟨1, [104, 105], defaultNickname, 3, 5, none⟩], 1⟩ : Store).rows,
        (r.id : Int) ≠ 999999) ∧
    likeHandler (Env.calm 2 0) [57, 57, 57, 57, 57, 57]
        ⟨[⟨1, [104, 105], defaultNickname, 3, 5, none⟩], 1⟩
      = (⟨404, ⟨false, Data.null, "留言不存在", 2⟩⟩,
          ⟨[⟨1, [104, 105], defaultNickname, 3, 5, none⟩], 1⟩) :=
  have habs : ∀ r ∈ (⟨[⟨1, [104, 105], defaultNickname, 3, 5, none⟩], 1⟩ : Store).rows,
      (r.id : Int) ≠ 999999 := by
    intro r hr
    rw [List.mem_singleton.mp hr]
    decide
  ⟨⟨rfl, habs⟩,
    (like_absent_not_found (Env.calm 2 0) [57, 57, 57, 57, 57, 57] 999999
      ⟨[⟨1, [104, 105], defaultNickname, 3, 5, none⟩], 1⟩ rfl (by decide) habs rfl rfl).1⟩

/-! ## Storage failures -/

theorem catchAny_error {now : Nat} {x : Except String Response × Store} {msg : String}
    (h : x.1 = Except.error msg) : (catchAny now x).1 = internalError now := by
  obtain ⟨r, s⟩ := x
  cases r with
  | ok v => cases h
  | error err => rfl

theorem catchLike_error {now : Nat} {x : Except String Response × Store} {msg : String}
    (h : x.1 = Except.error msg) (hm : msg ≠ notFoundText) :
    (catchLike now x).1 = internalError now := by
  obtain ⟨r, s⟩ := x
  cases r with
  | ok v => cases h
  | error err =>
    have : err = msg := by
      simpa using h
    subst this
    simp [catchLike, hm]

theorem tryBlock_of_thrown {e : Env} {r : Request} {s : Store} {msg : String}
    (h : thrown e r s = some msg) : (tryBlock e r s).1 = Except.error msg := by
  unfold thrown at h
  cases ht : (tryBlock e r s).1 with
  | ok v => simp [ht] at h
  | error err =>
    simp only [ht, Option.some.injEq] at h
    rw [h]

theorem handle_of_thrown {e : Env} {r : Request} {s : Store} {msg : String}
    (h : thrown e r s = some msg) (hl : isLike r = true → msg ≠ notFoundText) :
    (handle e r s).1 = internalError e.now := by
  have ht := tryBlock_of_thrown h
  cases r with
  | list => exact catchAny_error ht
  | create req => exact catchAny_error ht
  | get p => exact catchAny_error ht
  | delete p => exact catchAny_error ht
  | like p => exact catchLike_error ht (hl rfl)

/-! ## Reads do not depend on `ip_address` -/

theorem view_withoutIp (r : Row) : r.withoutIp.view = r.view := rfl

theorem hasId_withoutIp (id : Int) (r : Row) : Row.hasId id r.withoutIp = Row.hasId id r := rfl

theorem selectById_withoutIp (id : Int) (s : Store) :
    selectById id s.withoutIp = selectById id s := by
  unfold selectById Store.withoutIp
  induction s.rows with
  | nil => rfl
  | cons a t ih =>
    by_cases ha : Row.hasId id a = true
    · simp [List.find?_cons, hasId_withoutIp, ha, view_withoutIp]
    · simpa [List.find?_cons, hasId_withoutIp, ha] using ih

theorem changes_withoutIp_rows (id : Int) (l : List Row) :
    ((l.map Row.withoutIp).filter (Row.hasId id)).length = (l.filter (Row.hasId id)).length := by
  induction l with
  | nil => rfl
  | cons a t ih =>
    by_cases ha : Row.hasId id a = true
    · simp [List.filter_cons, hasId_withoutIp, ha, ih]
    · simp [List.filter_cons, hasId_withoutIp, ha, ih]

theorem changes_withoutIp (id : Int) (s : Store) : changes id s.withoutIp = changes id s :=
  changes_withoutIp_rows id s.rows

theorem maxId_withoutIp (rows : List Row) : maxId (rows.map Row.withoutIp) = maxId rows := by
  induction rows with
  | nil => rfl
  | cons a t ih => simp [maxId, ih, Row.withoutIp]

theorem nextId_withoutIp (s : Store) : nextId s.withoutIp = nextId s := by
  simp [nextId, Store.withoutIp, maxId_withoutIp]

theorem insertDesc_withoutIp (r : Row) (l : List Row) :
    insertDesc r.withoutIp (l.map Row.withoutIp) = (insertDesc r l).map Row.withoutIp := by
  induction l with
  | nil => rfl
  | cons b t ih =>
    by_cases hb : b.created_at ≤ r.created_at
    · simp [insertDesc, hb, Row.withoutIp]
    · have := ih
      simp only [Row.withoutIp] at this
      simp [insertDesc, hb, Row.withoutIp, this]

theorem orderBy_withoutIp (l : List Row) :
    orderByCreatedAtDesc (l.map Row.withoutIp) = (orderByCreatedAtDesc l).map Row.withoutIp := by
  induction l with
  | nil => rfl
  | cons a t ih => simp [orderByCreatedAtDesc, ih, insertDesc_withoutIp]

theorem listed_withoutIp (s : Store) :
    (orderByCreatedAtDesc s.withoutIp.rows).map Row.view
      = (orderByCreatedAtDesc s.rows).map Row.view := by
  simp only [Store.withoutIp, orderBy_withoutIp, List.map_map]
  rfl

theorem insertRow_withoutIp (stamp : Nat) (c n : Str) (ip : Option Str) (s : Store) :
    (insertRow stamp c n ip s).withoutIp = insertRow stamp c n none s.withoutIp := by
  simp [insertRow, Store.withoutIp, nextId, maxId_withoutIp, Row.withoutIp]

theorem deleteRows_withoutIp (id : Int) (s : Store) :
    (deleteRows id s).withoutIp = deleteRows id s.withoutIp := by
  simp only [deleteRows, Store.withoutIp, Store.mk.injEq, and_true]
  induction s.rows with
  | nil => rfl
  | cons a t ih =>
    by_cases ha : Row.hasId id a = true
    · simp [List.filter_cons, hasId_withoutIp, ha, ih]
    · simp [List.filter_cons, hasId_withoutIp, ha, ih]

theorem bumpLikes_withoutIp (id : Int) (s : Store) :
    (bumpLikes id s).withoutIp = bumpLikes id s.withoutIp := by
  simp only [bumpLikes, Store.withoutIp, Store.mk.injEq, and_true, List.map_map]
  apply List.map_congr_left
  intro a _
  have hw : Row.hasId id a.withoutIp = Row.hasId id a := rfl
  by_cases ha : Row.hasId id a = true
  · simp [Function.comp, hw, ha]
    rfl
  · simp [Function.comp, hw, ha]

theorem selectById_congr {s1 s2 : Store} (h : s1.withoutIp = s2.withoutIp) (id : Int) :
    selectById id s1 = selectById id s2 := by
  rw [← selectById_withoutIp id s1, ← selectById_withoutIp id s2, h]

theorem changes_congr {s1 s2 : Store} (h : s1.withoutIp = s2.withoutIp) (id : Int) :
    changes id s1 = changes id s2 := by
  rw [← changes_withoutIp id s1, ← changes_withoutIp id s2, h]

theorem nextId_congr {s1 s2 : Store} (h : s1.withoutIp = s2.withoutIp) :
    nextId s1 = nextId s2 := by
  rw [← nextId_withoutIp s1, ← nextId_withoutIp s2, h]

theorem listed_congr {s1 s2 : Store} (h : s1.withoutIp = s2.withoutIp) :
    (orderByCreatedAtDesc s1.rows).map Row.view = (orderByCreatedAtDesc s2.rows).map Row.view := by
  rw [← listed_withoutIp s1, ← listed_withoutIp s2, h]

theorem insertRow_congr {s1 s2 : Store} (h : s1.withoutIp = s2.withoutIp) (stamp : Nat)
    (c n : Str) (ip1 ip2 : Option Str) :
    (insertRow stamp c n ip1 s1).withoutIp = (insertRow stamp c n ip2 s2).withoutIp := by
  rw [insertRow_withoutIp, insertRow_withoutIp, h]

theorem deleteRows_congr {s1 s2 : Store} (h : s1.withoutIp = s2.withoutIp) (id : Int) :
    (deleteRows id s1).withoutIp = (deleteRows id s2).withoutIp := by
  rw [deleteRows_withoutIp, deleteRows_withoutIp, h]

theorem bumpLikes_congr {s1 s2 : Store} (h : s1.withoutIp = s2.withoutIp) (id : Int) :
    (bumpLikes id s1).withoutIp = (bumpLikes id s2).withoutIp := by
  rw [bumpLikes_withoutIp, bumpLikes_withoutIp, h]

theorem listHandler_congr (e : Env) {s1 s2 : Store} (h : s1.withoutIp = s2.withoutIp) :
    (listHandler e s1).1 = (listHandler e s2).1 ∧
    (listHandler e s1).2.withoutIp = (listHandler e s2).2.withoutIp := by
  unfold listHandler listTry getAllMessages
  cases e.open1 with
  | some err => exact ⟨rfl, h⟩
  | none =>
    cases e.stmt1 with
    | some err => exact ⟨rfl, h⟩
    | none =>
      simp only [listed_congr h]
      exact ⟨rfl, h⟩

theorem getHandler_congr (e : Env) (p : Str) {s1 s2 : Store}
    (h : s1.withoutIp = s2.withoutIp) :
    (getHandler e p s1).1 = (getHandler e p s2).1 ∧
    (getHandler e p s1).2.withoutIp = (getHandler e p s2).2.withoutIp := by
  rw [getHandler_store, getHandler_store]
  refine ⟨?_, h⟩
  unfold getHandler getTry getMessageById
  cases parseInt p with
  | none => rfl
  | some m =>
    simp only [selectById_congr h m]
    by_cases hm : m ≤ 0
    · simp [hm, catchAny]
    · simp only [hm, if_false]
      cases e.open1 with
      | some err => rfl
      | none =>
        cases e.stmt1 with
        | some err => rfl
        | none => cases selectById m s2 <;> rfl

theorem postHandler_congr (e : Env) (c n : JsVal) (ip1 ra1 ip2 ra2 : Option Str)
    {s1 s2 : Store}
    (hb : ∀ a b : Store, a.withoutIp = b.withoutIp →
      (e.between a).withoutIp = (e.between b).withoutIp)
    (h : s1.withoutIp = s2.withoutIp) :
    (postHandler e ⟨c, n, ip1, ra1⟩ s1).1 = (postHandler e ⟨c, n, ip2, ra2⟩ s2).1 ∧
    (postHandler e ⟨c, n, ip1, ra1⟩ s1).2.withoutIp
      = (postHandler e ⟨c, n, ip2, ra2⟩ s2).2.withoutIp := by
  unfold postHandler postTry
  by_cases hbad : (!c.truthy || !c.isString) = true
  · simp only [hbad, if_true]
    exact ⟨rfl, h⟩
  · by_cases h0 : (trim c.units).length = 0
    · simp only [hbad, h0, if_true]
      exact ⟨rfl, h⟩
    · by_cases h2 : (trim c.units).length > 200
      · simp only [hbad, h0, h2, if_true, if_false]
        exact ⟨rfl, h⟩
      · simp only [hbad, h0, h2, if_false]
        unfold createMessage
        cases e.open1 with
        | some err => exact ⟨rfl, h⟩
        | none =>
          cases e.stmt1 with
          | some err => exact ⟨rfl, h⟩
          | none =>
            have hins := hb _ _ (insertRow_congr h e.stamp (trim c.units) (validNickname n)
              (some (clientIP ⟨c, n, ip1, ra1⟩)) (some (clientIP ⟨c, n, ip2, ra2⟩)))
            cases e.stmt2 with
            | some err => exact ⟨rfl, hins⟩
            | none =>
              simp only [nextId_congr h, selectById_congr hins]
              exact ⟨rfl, hins⟩

theorem deleteHandler_congr (e : Env) (p : Str) {s1 s2 : Store}
    (hb : ∀ a b : Store, a.withoutIp = b.withoutIp →
      (e.between a).withoutIp = (e.between b).withoutIp)
    (h : s1.withoutIp = s2.withoutIp) :
    (deleteHandler e p s1).1 = (deleteHandler e p s2).1 ∧
    (deleteHandler e p s1).2.withoutIp = (deleteHandler e p s2).2.withoutIp := by
  unfold deleteHandler deleteTry getMessageById
  cases parseInt p with
  | none => exact ⟨rfl, h⟩
  | some m =>
    simp only [selectById_congr h m]
    by_cases hm : m ≤ 0
    · simp only [hm, if_true]
      exact ⟨rfl, h⟩
    · simp only [hm, if_false]
      cases e.open1 with
      | some err => exact ⟨rfl, h⟩
      | none =>
        cases e.stmt1 with
        | some err => exact ⟨rfl, h⟩
        | none =>
          cases selectById m s2 with
          | none => exact ⟨rfl, h⟩
          | some v =>
            have hbt := hb _ _ h
            unfold deleteMessage
            cases e.open2 with
            | some err => exact ⟨rfl, hbt⟩
            | none =>
              cases e.stmt2 with
              | some err => exact ⟨rfl, hbt⟩
              | none =>
                simp only [changes_congr hbt m]
                by_cases hc : changes m (e.between s2) > 0
                · simp only [hc, decide_True, catchAny]
                  exact ⟨trivial, deleteRows_congr hbt m⟩
                · simp only [hc, decide_False, catchAny]
                  exact ⟨trivial, deleteRows_congr hbt m⟩

theorem likeHandler_congr (e : Env) (p : Str) {s1 s2 : Store}
    (hb : ∀ a b : Store, a.withoutIp = b.withoutIp →
      (e.between a).withoutIp = (e.between b).withoutIp)
    (h : s1.withoutIp = s2.withoutIp) :
    (likeHandler e p s1).1 = (likeHandler e p s2).1 ∧
    (likeHandler e p s1).2.withoutIp = (likeHandler e p s2).2.withoutIp := by
  unfold likeHandler likeTry
  cases parseInt p with
  | none => exact ⟨rfl, h⟩
  | some m =>
    by_cases hm : m ≤ 0
    · simp only [hm, if_true]
      exact ⟨rfl, h⟩
    · simp only [hm, if_false]
      unfold likeMessage
      cases e.open1 with
      | some err =>
        by_cases hx : err = notFoundText
        · simp only [catchLike, hx, if_true]
          exact ⟨trivial, h⟩
        · simp only [catchLike, hx, if_false]
          exact ⟨trivial, h⟩
      | none =>
        cases e.stmt1 with
        | some err =>
          by_cases hx : err = notFoundText
          · simp only [catchLike, hx, if_true]
            exact ⟨trivial, h⟩
          · simp only [catchLike, hx, if_false]
            exact ⟨trivial, h⟩
        | none =>
          simp only [changes_congr h m]
          by_cases hc : changes m s2 = 0
          · simp only [hc, if_true, catchLike]
            exact ⟨trivial, h⟩
          · have hbt := hb _ _ (bumpLikes_congr h m)
            simp only [hc, if_false]
            cases e.stmt2 with
            | some err =>
              by_cases hx : err = notFoundText
              · simp only [catchLike, hx, if_true]
                exact ⟨trivial, hbt⟩
              · simp only [catchLike, hx, if_false]
                exact ⟨trivial, hbt⟩
            | none =>
              simp only [catchLike, selectById_congr hbt m]
              exact ⟨trivial, hbt⟩

/-- C11. The records in responses carry `id`, `content`, `nickname`, `likes`
and `time` and no `ip_address` (`View` has no such field), and no response
depends on a stored `ip_address`: for every request to the five endpoints (List,
Get-by-id, Create and Like among them), every environment and any two stores
that differ only in the `ip_address` values of their rows, the two responses are
identical and the two stores afterwards again differ only in `ip_address`
values; the response to a Create does not depend on the origin of the request
either. Other requests writing in between are allowed as long as what they
write does not depend on a stored `ip_address`. -/
theorem ip_address_not_exposed (e : Env) (r : Request) (s1 s2 : Store)
    (hb : ∀ a b : Store, a.withoutIp = b.withoutIp →
      (e.between a).withoutIp = (e.between b).withoutIp)
    (h : s1.withoutIp = s2.withoutIp) :
    (handle e r s1).1 = (handle e r s2).1 ∧
    (handle e r s1).2.withoutIp = (handle e r s2).2.withoutIp ∧
    (∀ (c n : JsVal) (ip1 ra1 ip2 ra2 : Option Str),
      (postHandler e ⟨c, n, ip1, ra1⟩ s1).1 = (postHandler e ⟨c, n, ip2, ra2⟩ s2).1) := by
  refine ⟨?_, ?_, fun c n ip1 ra1 ip2 ra2 =>
    (postHandler_congr e c n ip1 ra1 ip2 ra2 hb h).1⟩
  · cases r with
    | list => exact (listHandler_congr e h).1
    | create req => exact (postHandler_congr e req.content req.nickname _ _ _ _ hb h).1
    | get p => exact (getHandler_congr e p h).1
    | delete p => exact (deleteHandler_congr e p hb h).1
    | like p => exact (likeHandler_congr e p hb h).1
  · cases r with
    | list => exact (listHandler_congr e h).2
    | create req => exact (postHandler_congr e req.content req.nickname _ _ _ _ hb h).2
    | get p => exact (getHandler_congr e p h).2
    | delete p => exact (deleteHandler_congr e p hb h).2
    | like p => exact (likeHandler_congr e p hb h).2

/-- Witness of C11: Get of record 1 on two stores that record different
origins for it. -/
theorem ip_address_not_exposed_witness :
    (⟨[⟨1, [104, 105], defaultNickname, 0, 5, some [49]⟩], 1⟩ : Store).withoutIp
      = (⟨[⟨1, [104, 105], defaultNickname, 0, 5, some [50]⟩], 1⟩ : Store).withoutIp ∧
    (handle (Env.calm 3 0) (Request.get [49])
        ⟨[⟨1, [104, 105], defaultNickname, 0, 5, some [49]⟩], 1⟩).1
      = (handle (Env.calm 3 0) (Request.get [49])
        ⟨[⟨1, [104, 105], defaultNickname, 0, 5, some [50]⟩], 1⟩).1 :=
  ⟨rfl,
    (ip_address_not_exposed (Env.calm 3 0) (Request.get [49])
      ⟨[⟨1, [104, 105], defaultNickname, 0, 5, some [49]⟩], 1⟩
      ⟨[⟨1, [104, 105], defaultNickname, 0, 5, some [50]⟩], 1⟩
      (fun _ _ hab => hab) rfl).1⟩

/-! ## `initDatabase` -/

theorem initDatabase_nonempty {f : InitEnv} (hf : f.NoFault) {s : Store} (hs : s.rows ≠ []) :
    initDatabase f (some s) = Except.ok s := by
  obtain ⟨h1, h2, h3, _, h5⟩ := hf
  have hl : ¬ s.rows.length = 0 := by
    intro h
    exact hs (List.length_eq_zero.mp h)
  simp [initDatabase, h1, h2, h3, h5, hl]

theorem initDatabase_empty {f : InitEnv} (hf : f.NoFault) (q : Nat) :
    initDatabase f (some ⟨[], q⟩) = Except.ok
      ⟨[⟨q + 1, (sampleMessages.getD 0 ([], [])).1, (sampleMessages.getD 0 ([], [])).2, 0,
          f.stamp 0, none⟩,
        ⟨q + 2, (sampleMessages.getD 1 ([], [])).1, (sampleMessages.getD 1 ([], [])).2, 0,
          f.stamp 1, none⟩,
        ⟨q + 3, (sampleMessages.getD 2 ([], [])).1, (sampleMessages.getD 2 ([], [])).2, 0,
          f.stamp 2, none⟩,
        ⟨q + 4, (sampleMessages.getD 3 ([], [])).1, (sampleMessages.getD 3 ([], [])).2, 0,
          f.stamp 3, none⟩], q + 4⟩ := by
  obtain ⟨h1, h2, h3, h4, h5⟩ := hf
  simp [initDatabase, h1, h2, h3, h5, seed, h4, sampleMessages, insertRow, nextId, maxId]

/-- C12. When no storage operation fails, `initDatabase` run on an empty store
(no table yet, or a table without rows) inserts exactly the four sample
messages, in order, each with `likes = 0`; run on a store with at least one row
it returns the store as it was; hence a second run after a first returns the
store of the first, and the samples are never inserted twice. -/
theorem initDatabase_idempotent (f f2 : InitEnv) (hf : f.NoFault) (hf2 : f2.NoFault)
    (db : Option Store) :
    (∀ tbl : Option Store, tbl = none ∨ (∃ q, tbl = some ⟨[], q⟩) →
      ∃ s1, initDatabase f tbl = Except.ok s1 ∧
        s1.rows.map (fun r => (r.content, r.nickname)) = sampleMessages ∧
        s1.rows.length = 4 ∧
        (∀ r ∈ s1.rows, r.likes = 0)) ∧
    (∀ s : Store, s.rows ≠ [] → initDatabase f (some s) = Except.ok s) ∧
    (∃ s1, initDatabase f db = Except.ok s1 ∧ initDatabase f2 (some s1) = Except.ok s1 ∧
      (db.getD ⟨[], 0⟩).rows.Sublist s1.rows) := by
  have hempty : ∀ q : Nat, ∃ s1, initDatabase f (some ⟨[], q⟩) = Except.ok s1 ∧
      s1.rows.map (fun r => (r.content, r.nickname)) = sampleMessages ∧
      s1.rows.length = 4 ∧ (∀ r ∈ s1.rows, r.likes = 0) ∧ s1.rows ≠ [] := by
    intro q
    refine ⟨_, initDatabase_empty hf q, ?_, rfl, ?_, ?_⟩
    · rfl
    · intro r hr
      simp only [List.mem_cons, List.mem_singleton, List.not_mem_nil, or_false] at hr
      rcases hr with rfl | rfl | rfl | rfl <;> rfl
    · simp
  have hnone : initDatabase f none = initDatabase f (some ⟨[], 0⟩) := rfl
  refine ⟨?_, fun s hs => initDatabase_nonempty hf hs, ?_⟩
  · intro tbl htbl
    rcases htbl with rfl | ⟨q, rfl⟩
    · obtain ⟨s1, h1, h2, h3, h4, _⟩ := hempty 0
      exact ⟨s1, hnone.trans h1, h2, h3, h4⟩
    · obtain ⟨s1, h1, h2, h3, h4, _⟩ := hempty q
      exact ⟨s1, h1, h2, h3, h4⟩
  · have key : ∀ s : Store, ∃ s1, initDatabase f (some s) = Except.ok s1 ∧
        initDatabase f2 (some s1) = Except.ok s1 ∧ s.rows.Sublist s1.rows := by
      intro s
      by_cases hs : s.rows = []
      · obtain ⟨rows, q⟩ := s
        simp only at hs
        subst hs
        obtain ⟨s1, h1, _, _, _, h5⟩ := hempty q
        exact ⟨s1, h1, initDatabase_nonempty hf2 h5, List.nil_sublist _⟩
      · exact ⟨s, initDatabase_nonempty hf hs, initDatabase_nonempty hf2 hs,
          List.Sublist.refl _⟩
    cases db with
    | none =>
      obtain ⟨s1, h1, h2, h3⟩ := key ⟨[], 0⟩
      exact ⟨s1, hnone.trans h1, h2, h3⟩
    | some s => exact key s

/-- Witness of C12: a first run on a database without the table. -/
theorem initDatabase_idempotent_witness :
    InitEnv.NoFault ⟨none, none, none, fun _ => none, fun i => 100 + i, none⟩ ∧
    ∃ s1, initDatabase ⟨none, none, none, fun _ => none, fun i => 100 + i, none⟩ none
        = Except.ok s1 ∧
      initDatabase ⟨none, none, none, fun _ => none, fun i => 200 + i, none⟩ (some s1)
        = Except.ok s1 :=
  ⟨⟨rfl, rfl, rfl, fun _ => rfl, rfl⟩,
    (initDatabase_idempotent ⟨none, none, none, fun _ => none, fun i => 100 + i, none⟩
      ⟨none, none, none, fun _ => none, fun i => 200 + i, none⟩
      ⟨rfl, rfl, rfl, fun _ => rfl, rfl⟩ ⟨rfl, rfl, rfl, fun _ => rfl, rfl⟩ none).2.2.imp
      (fun _ h => ⟨h.1, h.2.1⟩)⟩

/-! ## Like when the row vanishes between the two statements -/

/-- C13, the code at the failing input. Record 1 is liked while another request
deletes it between the `UPDATE` and the `SELECT`: the update changes one row, the
read-back finds none, `likeMessage` resolves with `undefined` instead of
rejecting with the not-found error, and the handler answers 200 with
`success = true` and `data = null`, not 404. -/
theorem like_row_vanished :
    changes 1 ⟨[⟨1, [104, 105], defaultNickname, 0, 5, none⟩], 1⟩ = 1 ∧
    likeMessage none none (deleteRows 1) none 1
        ⟨[⟨1, [104, 105], defaultNickname, 0, 5, none⟩], 1⟩
      = (Except.ok none, ⟨[], 1⟩) ∧
    likeHandler ⟨3, 0, none, none, deleteRows 1, none, none⟩ [49]
        ⟨[⟨1, [104, 105], defaultNickname, 0, 5, none⟩], 1⟩
      = (⟨200, ⟨true, Data.null, "点赞成功", 3⟩⟩, ⟨[], 1⟩) ∧
    (likeHandler ⟨3, 0, none, none, deleteRows 1, none, none⟩ [49]
        ⟨[⟨1, [104, 105], defaultNickname, 0, 5, none⟩], 1⟩).1 ≠ notFound 3 := by
  refine ⟨rfl, rfl, rfl, ?_⟩
  decide

/-! ## Frame: what each request leaves alone -/

theorem mem_bumped {m : Int} {rows : List Row} {row : Row} :
    row ∈ rows.map (fun r => if Row.hasId m r then
        (⟨r.id, r.content, r.nickname, r.likes + 1, r.created_at, r.ip_address⟩ : Row)
      else r) ↔
    (row ∈ rows ∧ Row.hasId m row = false) ∨
    ∃ old ∈ rows, Row.hasId m old = true ∧
      row = ⟨old.id, old.content, old.nickname, old.likes + 1, old.created_at,
        old.ip_address⟩ := by
  constructor
  · intro h
    obtain ⟨a, ha, hfa⟩ := List.mem_map.mp h
    by_cases hm : Row.hasId m a = true
    · right
      simp only [hm, if_true] at hfa
      exact ⟨a, ha, hm, hfa.symm⟩
    · left
      simp only [hm] at hfa
      subst hfa
      exact ⟨ha, by simpa using hm⟩
  · rintro (⟨h, hm⟩ | ⟨old, hold, hm, rfl⟩)
    · exact List.mem_map.mpr ⟨row, h, by simp [hm]⟩
    · exact List.mem_map.mpr ⟨old, hold, by simp [hm]⟩

theorem hasId_false_of_ne {m : Int} {row : Row} (h : m ≠ (row.id : Int)) :
    Row.hasId m row = false := by
  simp only [Row.hasId, beq_eq_false_iff_ne]
  exact fun hh => h hh.symm

/-- C14. For each of List, Create, Get-by-id, Delete and Like, every store and
every environment in which no other request writes in between (storage failures
allowed): a row whose id is not the id the request addresses is in the table
afterwards exactly when it was before, all six columns unchanged; every row
afterwards is a row from before, or (Like only) an addressed row from before
with `likes` one higher and nothing else changed, or (Create only) the one new
row under the fresh rowid with `likes = 0`; and every row from before is still
there unless it is addressed by a Delete (removed) or by a Like (present with
`likes` one higher). -/
theorem frame (e : Env) (r : Request) (s : Store) (hb : e.between = id) :
    (∀ row : Row, target s r ≠ some (row.id : Int) →
      (row ∈ (handle e r s).2.rows ↔ row ∈ s.rows)) ∧
    (∀ row ∈ (handle e r s).2.rows,
      row ∈ s.rows ∨
      ((∃ p, r = Request.like p) ∧ target s r = some (row.id : Int) ∧
        ∃ old ∈ s.rows, row = ⟨old.id, old.content, old.nickname, old.likes + 1,
          old.created_at, old.ip_address⟩) ∨
      ((∃ req, r = Request.create req) ∧ target s r = some (row.id : Int) ∧
        row.likes = 0 ∧ ∀ old ∈ s.rows, old.id ≠ row.id)) ∧
    (∀ old ∈ s.rows,
      old ∈ (handle e r s).2.rows ∨
      ((∃ p, r = Request.delete p) ∧ target s r = some (old.id : Int)) ∨
      ((∃ p, r = Request.like p) ∧ target s r = some (old.id : Int) ∧
        (⟨old.id, old.content, old.nickname, old.likes + 1, old.created_at,
          old.ip_address⟩ : Row) ∈ (handle e r s).2.rows)) := by
  cases r with
  | list =>
    simp only [handle, listHandler_store]
    exact ⟨fun _ _ => trivial, fun _ h => Or.inl h, fun _ h => Or.inl h⟩
  | get p =>
    simp only [handle, getHandler_store]
    exact ⟨fun _ _ => trivial, fun _ h => Or.inl h, fun _ h => Or.inl h⟩
  | create req =>
    rcases postHandler_store e req s with h | ⟨c, nick, ip, h⟩
    · simp only [handle, h]
      exact ⟨fun _ _ => trivial, fun _ h => Or.inl h, fun _ h => Or.inl h⟩
    · simp only [handle, h, hb, id, insertRow, target, List.mem_append, List.mem_singleton]
      refine ⟨?_, ?_, fun old hold => Or.inl (Or.inl hold)⟩
      · intro row hne
        constructor
        · rintro (hrow | rfl)
          · exact hrow
          · exact absurd rfl hne
        · exact fun hrow => Or.inl hrow
      · rintro row (hrow | rfl)
        · exact Or.inl hrow
        · refine Or.inr (Or.inr ⟨⟨req, rfl⟩, rfl, rfl, ?_⟩)
          intro old hold
          have := le_maxId hold
          simp only [nextId]
          omega
  | delete p =>
    rcases deleteHandler_store e p s with h | h | ⟨m, hp, h⟩
    · simp only [handle, h]
      exact ⟨fun _ _ => trivial, fun _ h => Or.inl h, fun _ h => Or.inl h⟩
    · simp only [handle, h, hb, id]
      exact ⟨fun _ _ => trivial, fun _ h => Or.inl h, fun _ h => Or.inl h⟩
    · simp only [handle, h, hb, id, deleteRows, target, hp, List.mem_filter]
      refine ⟨?_, fun row hrow => Or.inl hrow.1, ?_⟩
      · intro row hne
        have hm : m ≠ (row.id : Int) := fun hh => hne (by rw [hh])
        simp [hasId_false_of_ne hm]
      · intro old hold
        by_cases hm : Row.hasId m old = true
        · right
          left
          refine ⟨⟨p, rfl⟩, ?_⟩
          simp only [Row.hasId, beq_iff_eq] at hm
          rw [hm]
        · left
          exact ⟨hold, by simpa using hm⟩
  | like p =>
    rcases likeHandler_store e p s with h | ⟨m, hp, h⟩
    · simp only [handle, h]
      exact ⟨fun _ _ => trivial, fun _ h => Or.inl h, fun _ h => Or.inl h⟩
    · simp only [handle, h, hb, id, bumpLikes, target, hp, mem_bumped]
      refine ⟨?_, ?_, ?_⟩
      · intro row hne
        have hm : m ≠ (row.id : Int) := fun hh => hne (by rw [hh])
        constructor
        · rintro (⟨hrow, _⟩ | ⟨old, _, hold, rfl⟩)
          · exact hrow
          · simp only [Row.hasId, beq_iff_eq] at hold
            exact absurd hold.symm hm
        · exact fun hrow => Or.inl ⟨hrow, hasId_false_of_ne hm⟩
      · rintro row (⟨hrow, _⟩ | ⟨old, hold, hm, rfl⟩)
        · exact Or.inl hrow
        · refine Or.inr (Or.inl ⟨⟨p, rfl⟩, ?_, old, hold, rfl⟩)
          simp only [Row.hasId, beq_iff_eq] at hm
          rw [hm]
      · intro old hold
        by_cases hm : Row.hasId m old = true
        · right
          right
          refine ⟨⟨p, rfl⟩, ?_, Or.inr ⟨old, hold, hm, rfl⟩⟩
          simp only [Row.hasId, beq_iff_eq] at hm
          rw [hm]
        · left
          exact Or.inl ⟨hold, by simpa using hm⟩

/-- Witness of C14: a Like of record 1 in a table of two rows. -/
theorem frame_witness :
    (Env.calm 3 0).between = id ∧
    ∀ row : Row, target
        ⟨[⟨1, [104, 105], defaultNickname, 0, 5, none⟩, ⟨2, [98], defaultNickname, 4, 6, none⟩],
          2⟩ (Request.like [49]) ≠ some (row.id : Int) →
      (row ∈ (handle (Env.calm 3 0) (Request.like [49])
          ⟨[⟨1, [104, 105], defaultNickname, 0, 5, none⟩,
            ⟨2, [98], defaultNickname, 4, 6, none⟩], 2⟩).2.rows ↔
        row ∈ (⟨[⟨1, [104, 105], defaultNickname, 0, 5, none⟩,
            ⟨2, [98], defaultNickname, 4, 6, none⟩], 2⟩ : Store).rows) :=
  ⟨rfl, (frame (Env.calm 3 0) (Request.like [49])
    ⟨[⟨1, [104, 105], defaultNickname, 0, 5, none⟩, ⟨2, [98], defaultNickname, 4, 6, none⟩], 2⟩
    rfl).1⟩

/-! ## The envelope -/

theorem uniform_ok (now st : Nat) (d : Data) (msg : String) (h : st = 200 ∨ st = 201) :
    Uniform now ⟨st, createResponse now true d msg⟩ :=
  ⟨⟨true, d, msg, rfl⟩, rfl, Or.inl ⟨rfl, h⟩⟩

theorem uniform_fail (now st : Nat) (msg : String) (h : st = 400 ∨ st = 404 ∨ st = 500) :
    Uniform now ⟨st, createResponse now false Data.null msg⟩ :=
  ⟨⟨false, Data.null, msg, rfl⟩, rfl, Or.inr ⟨rfl, rfl, h⟩⟩

theorem uniform_internalError (now : Nat) : Uniform now (internalError now) :=
  uniform_fail now 500 _ (Or.inr (Or.inr rfl))

theorem uniform_invalidId (now : Nat) : Uniform now (invalidId now) :=
  uniform_fail now 400 _ (Or.inl rfl)

theorem uniform_notFound (now : Nat) : Uniform now (notFound now) :=
  uniform_fail now 404 _ (Or.inr (Or.inl rfl))

theorem listHandler_uniform (e : Env) (s : Store) : Uniform e.now (listHandler e s).1 := by
  unfold listHandler listTry
  cases getAllMessages e.open1 e.stmt1 s with
  | ok l => exact uniform_ok _ _ _ _ (Or.inl rfl)
  | error err => exact uniform_internalError _

theorem getHandler_uniform (e : Env) (p : Str) (s : Store) :
    Uniform e.now (getHandler e p s).1 := by
  unfold getHandler getTry
  cases parseInt p with
  | none => exact uniform_invalidId _
  | some m =>
    by_cases hm : m ≤ 0
    · simp only [hm, if_true]
      exact uniform_invalidId _
    · simp only [hm, if_false]
      cases getMessageById e.open1 e.stmt1 m s with
      | error err => exact uniform_internalError _
      | ok o =>
        cases o with
        | none => exact uniform_notFound _
        | some v => exact uniform_ok _ _ _ _ (Or.inl rfl)

theorem postHandler_uniform (e : Env) (req : CreateReq) (s : Store) :
    Uniform e.now (postHandler e req s).1 := by
  unfold postHandler postTry
  by_cases hbad : (!req.content.truthy || !req.content.isString) = true
  · simp only [hbad, if_true]
    exact uniform_fail _ _ _ (Or.inl rfl)
  · by_cases h0 : (trim req.content.units).length = 0
    · simp only [hbad, h0, if_true, Bool.false_eq_true, if_false]
      exact uniform_fail _ _ _ (Or.inl rfl)
    · by_cases h2 : (trim req.content.units).length > 200
      · simp only [hbad, h0, h2, if_true, if_false, Bool.false_eq_true]
        exact uniform_fail _ _ _ (Or.inl rfl)
      · simp only [hbad, h0, h2, if_false, Bool.false_eq_true]
        cases hm : createMessage e.open1 e.stmt1 e.between e.stmt2 e.stamp
            (trim req.content.units) (validNickname req.nickname) (some (clientIP req)) s with
        | mk res s2 =>
          cases res with
          | ok v => exact uniform_ok _ _ _ _ (Or.inr rfl)
          | error err => exact uniform_internalError _

theorem deleteHandler_uniform (e : Env) (p : Str) (s : Store) :
    Uniform e.now (deleteHandler e p s).1 := by
  unfold deleteHandler deleteTry
  cases parseInt p with
  | none => exact uniform_invalidId _
  | some m =>
    by_cases hm : m ≤ 0
    · simp only [hm, if_true]
      exact uniform_invalidId _
    · simp only [hm, if_false]
      cases getMessageById e.open1 e.stmt1 m s with
      | error err => exact uniform_internalError _
      | ok o =>
        cases o with
        | none => exact uniform_notFound _
        | some v =>
          cases hd : deleteMessage e.open2 e.stmt2 m (e.between s) with
          | mk res s2 =>
            cases res with
            | error err => exact uniform_internalError _
            | ok b =>
              cases b with
              | true => exact uniform_ok _ _ _ _ (Or.inl rfl)
              | false => exact uniform_fail _ _ _ (Or.inr (Or.inr rfl))

theorem likeHandler_uniform (e : Env) (p : Str) (s : Store) :
    Uniform e.now (likeHandler e p s).1 := by
  unfold likeHandler likeTry
  cases parseInt p with
  | none => exact uniform_invalidId _
  | some m =>
    by_cases hm : m ≤ 0
    · simp only [hm, if_true]
      exact uniform_invalidId _
    · simp only [hm, if_false]
      cases hl : likeMessage e.open1 e.stmt1 e.between e.stmt2 m s with
      | mk res s2 =>
        cases res with
        | ok v => exact uniform_ok _ _ _ _ (Or.inl rfl)
        | error err =>
          by_cases hx : err = notFoundText
          · simp only [catchLike, hx, if_true]
            exact uniform_notFound _
          · simp only [catchLike, hx, if_false]
            exact uniform_internalError _

theorem handle_uniform (e : Env) (r : Request) (s : Store) : Uniform e.now (handle e r s).1 := by
  cases r with
  | list => exact listHandler_uniform e s
  | create req => exact postHandler_uniform e req s
  | get p => exact getHandler_uniform e p s
  | delete p => exact deleteHandler_uniform e p s
  | like p => exact likeHandler_uniform e p s

/-- C15. Every response of the five message endpoints, for every store and
every environment (failing driver calls and writes of other requests in between
included), is the envelope built by `createResponse` with the fields `success`,
`data`, `message` and `timestamp` (the clock of the request): `data` is always
present, since an `undefined` argument is replaced by `null`; `success` is true
exactly when the status is 200 or 201; and `data` is `null` in every response
whose `success` is false. -/
theorem envelope_uniform (e : Env) (r : Request) (s : Store) :
    (∃ (success : Bool) (data : Data) (message : String),
      (handle e r s).1.body = createResponse e.now success data message) ∧
    (handle e r s).1.body.timestamp = e.now ∧
    (handle e r s).1.body.data ≠ Data.undefined ∧
    ((handle e r s).1.body.success = true ↔
      (handle e r s).1.status = 200 ∨ (handle e r s).1.status = 201) ∧
    ((handle e r s).1.body.success = false → (handle e r s).1.body.data = Data.null) ∧
    (∀ (success : Bool) (data : Data) (message : String),
      (createResponse e.now success data message).data ≠ Data.undefined ∧
      (createResponse e.now success Data.undefined message).data = Data.null) := by
  obtain ⟨hbuilt, hts, hshape⟩ := handle_uniform e r s
  refine ⟨hbuilt, hts, ?_, ?_, ?_, fun success data message =>
    ⟨orNull_ne_undefined data, rfl⟩⟩
  · obtain ⟨success, data, message, hb⟩ := hbuilt
    rw [hb]
    exact orNull_ne_undefined data
  · rcases hshape with ⟨h1, h2⟩ | ⟨h1, _, h3⟩
    · exact ⟨fun _ => h2, fun _ => h1⟩
    · constructor
      · intro h
        rw [h1] at h
        cases h
      · intro h
        omega
  · rcases hshape with ⟨h1, _⟩ | ⟨_, h2, _⟩
    · intro h
      rw [h1] at h
      cases h
    · exact fun _ => h2

/-- Witness of C15: the envelope of a Like whose row another request deletes
between the update and the read-back still carries `data`, as `null`. -/
theorem envelope_uniform_witness :
    (handle ⟨3, 0, none, none, deleteRows 1, none, none⟩ (Request.like [49])
        ⟨[⟨1, [104, 105], defaultNickname, 0, 5, none⟩], 1⟩).1.body
      = ⟨true, Data.null, "点赞成功", 3⟩ ∧
    (handle ⟨3, 0, none, none, deleteRows 1, none, none⟩ (Request.like [49])
        ⟨[⟨1, [104, 105], defaultNickname, 0, 5, none⟩], 1⟩).1.body.data ≠ Data.undefined :=
  ⟨rfl, (envelope_uniform ⟨3, 0, none, none, deleteRows 1, none, none⟩ (Request.like [49])
    ⟨[⟨1, [104, 105], defaultNickname, 0, 5, none⟩], 1⟩).2.2.1⟩

/-! ## Delete: the `删除失败` branch -/

/-- C17. In the Delete handler, when no other request writes between the
existence check and the delete and no storage operation fails, the 500
`删除失败` branch is not taken: whenever `getMessageById` returns a record for
an id, `deleteMessage` on that id resolves with `true`, and Delete answers 400,
404 or 200. -/
theorem delete_failed_unreachable (e : Env) (p : Str) (s : Store) (hf : NoFault e)
    (hb : e.between = id) :
    ((deleteHandler e p s).1.status = 400 ∨ (deleteHandler e p s).1.status = 404 ∨
      (deleteHandler e p s).1.status = 200) ∧
    (deleteHandler e p s).1 ≠ ⟨500, createResponse e.now false Data.null "删除失败"⟩ ∧
    (∀ (n : Int) (v : View), getMessageById e.open1 e.stmt1 n s = Except.ok (some v) →
      (deleteMessage e.open2 e.stmt2 n (e.between s)).1 = Except.ok true) := by
  have hdel : ∀ (n : Int) (v : View), getMessageById e.open1 e.stmt1 n s = Except.ok (some v) →
      (deleteMessage e.open2 e.stmt2 n (e.between s)).1 = Except.ok true := by
    intro n v hg
    obtain ⟨h1, h2, h3, h4⟩ := hf
    have hv : selectById n s = some v := by
      simpa [getMessageById, h1, h2] using hg
    have hc : changes n s > 0 := by
      have : ¬ changes n s = 0 := by
        rw [changes_eq_zero_iff, hv]
        simp
      omega
    simp [deleteMessage, h3, h4, hb, hc]
  have hst : (deleteHandler e p s).1.status = 400 ∨ (deleteHandler e p s).1.status = 404 ∨
      (deleteHandler e p s).1.status = 200 := by
    cases hp : parseInt p with
    | none =>
      simp [deleteHandler, deleteTry, hp, catchAny, invalidId]
    | some m =>
      by_cases hm : m ≤ 0
      · simp [deleteHandler, deleteTry, hp, hm, catchAny, invalidId]
      · cases hv : selectById m s with
        | none =>
          have hpos : 0 < m := by omega
          rw [deleteHandler_missing hp hpos hf.1 hf.2.1 hv]
          simp [notFound]
        | some v =>
          have hpos : 0 < m := by omega
          rw [deleteHandler_ok hp hpos hf hb hv]
          simp
  refine ⟨hst, ?_, hdel⟩
  intro h
  rw [h] at hst
  simp at hst

/-- Witness of C17: Delete of record 1 of a one-row table. -/
theorem delete_failed_unreachable_witness :
    (NoFault (Env.calm 3 0) ∧ (Env.calm 3 0).between = id) ∧
    (deleteHandler (Env.calm 3 0) [49]
        ⟨[⟨1, [104, 105], defaultNickname, 0, 5, none⟩], 1⟩).1
      ≠ ⟨500, createResponse 3 false Data.null "删除失败"⟩ :=
  ⟨⟨⟨rfl, rfl, rfl, rfl⟩, rfl⟩,
    (delete_failed_unreachable (Env.calm 3 0) [49]
      ⟨[⟨1, [104, 105], defaultNickname, 0, 5, none⟩], 1⟩ ⟨rfl, rfl, rfl, rfl⟩ rfl).2.1⟩

/-! ## `parseInt` reads a prefix -/

theorem dropWhile_ws_append (ws l : Str) (hws : ∀ c ∈ ws, isWhiteSpace c = true) :
    (ws ++ l).dropWhile isWhiteSpace = l.dropWhile isWhiteSpace := by
  induction ws with
  | nil => rfl
  | cons a t ih =>
    have ha := hws a (List.mem_cons_self _ _)
    simp only [List.cons_append, List.dropWhile_cons, ha, if_true]
    exact ih (fun c hc => hws c (List.mem_cons_of_mem _ hc))

theorem parseInt_ws_append (ws l : Str) (hws : ∀ c ∈ ws, isWhiteSpace c = true) :
    parseInt (ws ++ l) = parseInt l := by
  unfold parseInt
  rw [dropWhile_ws_append ws l hws]

theorem digit_facts {c : Nat} (h : isDecimalDigit c = true) :
    48 ≤ c ∧ c ≤ 57 ∧ isWhiteSpace c = false ∧ digitVal c = some (c - 48) := by
  have hc : 48 ≤ c ∧ c ≤ 57 := by
    simpa [isDecimalDigit] using h
  refine ⟨hc.1, hc.2, ?_, ?_⟩
  · simp only [isWhiteSpace, Bool.or_eq_false_iff, beq_eq_false_iff_ne, Bool.and_eq_false_iff,
      decide_eq_false_iff_not]
    omega
  · simp [digitVal, hc.1, hc.2]

theorem takeDigits_stop {c : Nat} (t : Str) (h : isDecimalDigit c = false) :
    takeDigits 10 (c :: t) = [] := by
  have hc : ¬ (48 ≤ c ∧ c ≤ 57) := by
    simpa [isDecimalDigit] using h
  unfold takeDigits digitVal
  by_cases h1 : 97 ≤ c ∧ c ≤ 122
  · have : ¬ (c - 97 + 10 < 10) := by omega
    simp [hc, h1, this]
  · by_cases h2 : 65 ≤ c ∧ c ≤ 90
    · have : ¬ (c - 65 + 10 < 10) := by omega
      simp [hc, h1, h2, this]
    · simp [hc, h1, h2]

theorem takeDigits_decimal (ds rest : Str) (hds : ∀ c ∈ ds, isDecimalDigit c = true)
    (hrest : ∀ c ∈ rest.head?, isDecimalDigit c = false) :
    takeDigits 10 (ds ++ rest) = ds.map (fun c => c - 48) := by
  induction ds with
  | nil =>
    cases rest with
    | nil => rfl
    | cons c t => exact takeDigits_stop t (hrest c rfl)
  | cons a t ih =>
    obtain ⟨h1, h2, _, h4⟩ := digit_facts (hds a (List.mem_cons_self _ _))
    have hlt : a - 48 < 10 := by omega
    have ih2 := ih (fun c hc => hds c (List.mem_cons_of_mem _ hc))
    simp only [List.cons_append, takeDigits, h4, hlt, if_true, List.map_cons]
    exact congrArg _ ih2

theorem parseInt_core (a : Nat) (m : Str) (ha : isDecimalDigit a = true)
    (hx : a = 48 → ∀ c ∈ m.head?, c ≠ 120 ∧ c ≠ 88) :
    parseInt (a :: m) = (if (takeDigits 10 (a :: m)).isEmpty then none
      else some (digitsValue 10 (takeDigits 10 (a :: m)) : Int)) ∧
    parseInt (43 :: a :: m) = (if (takeDigits 10 (a :: m)).isEmpty then none
      else some (digitsValue 10 (takeDigits 10 (a :: m)) : Int)) ∧
    parseInt (45 :: a :: m) = (if (takeDigits 10 (a :: m)).isEmpty then none
      else some (-(digitsValue 10 (takeDigits 10 (a :: m)) : Int))) := by
  obtain ⟨h1, h2, _, _⟩ := digit_facts ha
  by_cases h48 : a = 48
  · subst h48
    cases m with
    | nil => exact ⟨rfl, rfl, rfl⟩
    | cons c u =>
      obtain ⟨hc1, hc2⟩ := hx rfl c rfl
      refine ⟨?_, ?_, ?_⟩
      · unfold parseInt
        simp only [List.dropWhile_cons, show isWhiteSpace 48 = false from rfl]
        split <;> simp_all
      · unfold parseInt
        simp only [List.dropWhile_cons, show isWhiteSpace 43 = false from rfl]
        split <;> simp_all
      · unfold parseInt
        simp only [List.dropWhile_cons, show isWhiteSpace 45 = false from rfl]
        split <;> simp_all
  · interval_cases a
    · exact absurd rfl h48
    all_goals exact ⟨rfl, rfl, rfl⟩

theorem parseInt_decimal (ds rest : Str) (hds : ∀ c ∈ ds, isDecimalDigit c = true)
    (hrest : ∀ c ∈ rest.head?, isDecimalDigit c = false)
    (hpos : 0 < digitsValue 10 (ds.map (fun c => c - 48))) :
    parseInt (ds ++ rest) = some (digitsValue 10 (ds.map (fun c => c - 48)) : Int) ∧
    parseInt (43 :: (ds ++ rest)) = some (digitsValue 10 (ds.map (fun c => c - 48)) : Int) ∧
    parseInt (45 :: (ds ++ rest))
      = some (-(digitsValue 10 (ds.map (fun c => c - 48)) : Int)) := by
  have htake := takeDigits_decimal ds rest hds hrest
  cases ds with
  | nil => simp [digitsValue] at hpos
  | cons a t =>
    have ha := hds a (List.mem_cons_self _ _)
    have hx : a = 48 → ∀ c ∈ (t ++ rest).head?, c ≠ 120 ∧ c ≠ 88 := by
      intro h48 c hc
      subst h48
      cases t with
      | nil => simp [digitsValue] at hpos
      | cons b u =>
        have hb := digit_facts (hds b (List.mem_cons_of_mem _ (List.mem_cons_self _ _)))
        simp only [List.cons_append, List.head?_cons, Option.mem_def, Option.some.injEq] at hc
        subst hc
        omega
    obtain ⟨h1, h2, h3⟩ := parseInt_core a (t ++ rest) ha hx
    simp only [List.cons_append] at htake ⊢
    rw [h1, h2, h3, htake]
    simp

theorem getHandler_not_400 {e : Env} {p : Str} {n : Int} {s : Store}
    (hp : parseInt p = some n) (hn : 0 < n) : (getHandler e p s).1.status ≠ 400 := by
  have hn2 : ¬ n ≤ 0 := by omega
  simp only [getHandler, getTry, hp, hn2, if_false]
  cases getMessageById e.open1 e.stmt1 n s with
  | error err => simp [catchAny, internalError]
  | ok o => cases o <;> simp [catchAny, notFound]

theorem deleteHandler_not_400 {e : Env} {p : Str} {n : Int} {s : Store}
    (hp : parseInt p = some n) (hn : 0 < n) : (deleteHandler e p s).1.status ≠ 400 := by
  have hn2 : ¬ n ≤ 0 := by omega
  simp only [deleteHandler, deleteTry, hp, hn2, if_false]
  cases getMessageById e.open1 e.stmt1 n s with
  | error err => simp [catchAny, internalError]
  | ok o =>
    cases o with
    | none => simp [catchAny, notFound]
    | some v =>
      cases hd : deleteMessage e.open2 e.stmt2 n (e.between s) with
      | mk res s2 =>
        cases res with
        | error err => simp [catchAny, internalError]
        | ok b => cases b <;> simp [catchAny]

theorem likeHandler_not_400 {e : Env} {p : Str} {n : Int} {s : Store}
    (hp : parseInt p = some n) (hn : 0 < n) : (likeHandler e p s).1.status ≠ 400 := by
  have hn2 : ¬ n ≤ 0 := by omega
  simp only [likeHandler, likeTry, hp, hn2, if_false]
  cases hl : likeMessage e.open1 e.stmt1 e.between e.stmt2 n s with
  | mk res s2 =>
    cases res with
    | ok v => simp [catchLike]
    | error err => by_cases hx : err = notFoundText <;> simp [catchLike, hx, notFound, internalError]

theorem handlers_by_parse (e : Env) (p q : Str) (s : Store) (h : parseInt p = parseInt q) :
    getHandler e p s = getHandler e q s ∧ deleteHandler e p s = deleteHandler e q s ∧
    likeHandler e p s = likeHandler e q s := by
  simp only [getHandler, getTry, deleteHandler, deleteTry, likeHandler, likeTry, h]
  exact ⟨trivial, trivial, trivial⟩

/-- C16. The id check of Get-by-id, Delete and Like accepts every path id made
of optional leading white space, an optional `+`, one or more decimal digits
forming a positive number `N`, and any rest that does not start with a decimal
digit (with the sign `-` the number read is `-N` and the answer is 400): `parseInt` yields `N`, no handler answers 400, and each handler does
exactly what it does for any other path id that parses to `N`, so it addresses
record `N`. So `'12abc'` and `'7.9'`, which are not the decimal form of an
integer, are read as 12 and 7, and Get returns records 12 and 7. -/
theorem prefix_id_accepted (ws ds rest p : Str) (plus : Bool) (e : Env) (s : Store)
    (hws : ∀ c ∈ ws, isWhiteSpace c = true) (hds : ∀ c ∈ ds, isDecimalDigit c = true)
    (hrest : ∀ c ∈ rest.head?, isDecimalDigit c = false)
    (hpos : 0 < digitsValue 10 (ds.map (fun c => c - 48)))
    (hp : p = ws ++ ((if plus then [43] else []) ++ (ds ++ rest))) :
    parseInt p = some (digitsValue 10 (ds.map (fun c => c - 48)) : Int) ∧
    (getHandler e p s).1.status ≠ 400 ∧ (deleteHandler e p s).1.status ≠ 400 ∧
    (likeHandler e p s).1.status ≠ 400 ∧
    (∀ q : Str, parseInt q = some (digitsValue 10 (ds.map (fun c => c - 48)) : Int) →
      getHandler e p s = getHandler e q s ∧ deleteHandler e p s = deleteHandler e q s ∧
      likeHandler e p s = likeHandler e q s) ∧
    (likeHandler e (ws ++ (45 :: (ds ++ rest))) s).1.status = 400 ∧
    parseInt [49, 50, 97, 98, 99] = some 12 ∧ parseInt [55, 46, 57] = some 7 ∧
    (getHandler (Env.calm 0 0) [49, 50, 97, 98, 99]
        ⟨[⟨7, [97], defaultNickname, 0, 1, none⟩, ⟨12, [98], defaultNickname, 3, 2, none⟩],
          12⟩).1
      = ⟨200, createResponse 0 true (Data.message ⟨12, [98], defaultNickname, 3, 2⟩)
          "获取留言成功"⟩ ∧
    (getHandler (Env.calm 0 0) [55, 46, 57]
        ⟨[⟨7, [97], defaultNickname, 0, 1, none⟩, ⟨12, [98], defaultNickname, 3, 2, none⟩],
          12⟩).1
      = ⟨200, createResponse 0 true (Data.message ⟨7, [97], defaultNickname, 0, 1⟩)
          "获取留言成功"⟩ := by
  have hparse : parseInt p = some (digitsValue 10 (ds.map (fun c => c - 48)) : Int) := by
    obtain ⟨h1, h2, _⟩ := parseInt_decimal ds rest hds hrest hpos
    rw [hp, parseInt_ws_append ws _ hws]
    cases plus with
    | true => simpa using h2
    | false => simpa using h1
  have hN : (0 : Int) < (digitsValue 10 (ds.map (fun c => c - 48)) : Int) := by
    exact_mod_cast hpos
  refine ⟨hparse, getHandler_not_400 hparse hN, deleteHandler_not_400 hparse hN,
    likeHandler_not_400 hparse hN, ?_, ?_, rfl, rfl, rfl, rfl⟩
  · intro q hq
    exact handlers_by_parse e p q s (hparse.trans hq.symm)
  · have hneg : parseInt (ws ++ (45 :: (ds ++ rest)))
        = some (-(digitsValue 10 (ds.map (fun c => c - 48)) : Int)) := by
      rw [parseInt_ws_append ws _ hws]
      exact (parseInt_decimal ds rest hds hrest hpos).2.2
    have hle : -(digitsValue 10 (ds.map (fun c => c - 48)) : Int) ≤ 0 := by omega
    simp [likeHandler, likeTry, hneg, hle, catchLike, invalidId]

/-- Witness of C16: the path id `' +12abc'`. -/
theorem prefix_id_accepted_witness :
    (0 < digitsValue 10 (([49, 50] : Str).map (fun c => c - 48)) ∧
      ([32, 43, 49, 50, 97, 98, 99] : Str)
        = [32] ++ ((if true then [43] else []) ++ ([49, 50] ++ [97, 98, 99]))) ∧
    parseInt [32, 43, 49, 50, 97, 98, 99]
      = some (digitsValue 10 (([49, 50] : Str).map (fun c => c - 48)) : Int) :=
  ⟨⟨by decide, rfl⟩,
    (prefix_id_accepted [32] [49, 50] [97, 98, 99] [32, 43, 49, 50, 97, 98, 99] true
      (Env.calm 0 0) ⟨[], 0⟩ (by decide) (by decide) (by decide) (by decide) rfl).1⟩

/-! ## The client-side check -/

theorem dropWhile_cons_self {a : Nat} {l : Str} :
    (a :: l).dropWhile isWhiteSpace = a :: l ↔ isWhiteSpace a = false := by
  constructor
  · intro h
    by_contra hne
    have ha : isWhiteSpace a = true := by simpa using hne
    rw [List.dropWhile_cons, if_pos ha] at h
    have hlen := (List.dropWhile_sublist isWhiteSpace (l := l)).length_le
    rw [h] at hlen
    simp at hlen
  · intro h
    simp [List.dropWhile_cons, h]

theorem dropWhile_self_of_concat {l : Str} {x : Nat}
    (h : (l ++ [x]).dropWhile isWhiteSpace = l ++ [x]) : l.dropWhile isWhiteSpace = l := by
  cases l with
  | nil => rfl
  | cons a t =>
    rw [List.cons_append] at h
    exact dropWhile_cons_self.mpr (dropWhile_cons_self.mp h)

theorem dropWhile_rdropWhile_self (d : Str) (h : d.dropWhile isWhiteSpace = d) :
    (d.rdropWhile isWhiteSpace).dropWhile isWhiteSpace = d.rdropWhile isWhiteSpace := by
  induction d using List.reverseRecOn with
  | nil => rfl
  | append_singleton l x ih =>
    by_cases hx : isWhiteSpace x = true
    · rw [List.rdropWhile_concat_pos _ _ _ hx]
      exact ih (dropWhile_self_of_concat h)
    · rw [List.rdropWhile_concat_neg _ _ _ hx]
      exact h

theorem trim_trim (s : Str) : trim (trim s) = trim s := by
  have ht : trim s = (s.dropWhile isWhiteSpace).rdropWhile isWhiteSpace := rfl
  have h1 : (trim s).dropWhile isWhiteSpace = trim s := by
    rw [ht]
    exact dropWhile_rdropWhile_self _ (List.dropWhile_idempotent _ _)
  show ((trim s).dropWhile isWhiteSpace).rdropWhile isWhiteSpace = trim s
  rw [h1, ht]
  exact List.rdropWhile_idempotent _ _

theorem validateInput_valid {msgValue nickValue c n : Str}
    (h : validateInput msgValue nickValue = Validation.valid c n) :
    c = trim msgValue ∧ 1 ≤ c.length ∧ c.length ≤ 200 ∧
    ((trim nickValue = [] ∧ n = defaultNickname) ∨
      (n = trim nickValue ∧ 1 ≤ n.length ∧ n.length ≤ 20)) := by
  unfold validateInput at h
  by_cases h0 : (trim msgValue).length = 0
  · simp [h0] at h
  · by_cases h2 : (trim msgValue).length > 200
    · simp [h0, h2] at h
    · by_cases h3 : (trim nickValue).length > 20
      · simp [h0, h2, h3] at h
      · simp only [h0, h2, h3, if_false, Validation.valid.injEq] at h
        obtain ⟨hc, hn⟩ := h
        subst hc
        refine ⟨rfl, by omega, by omega, ?_⟩
        cases hnick : trim nickValue with
        | nil =>
          left
          rw [hnick] at hn
          exact ⟨rfl, hn.symm⟩
        | cons a t =>
          right
          rw [hnick] at hn h3
          simp only [List.isEmpty_cons, Bool.false_eq_true, if_false] at hn
          subst hn
          refine ⟨rfl, by simp, by omega⟩

/-- C18. Whatever the two input fields hold, when `validateInput` returns valid
with `(content, nickname)`, the request `sendMessage` posts with them passes the
server's validation in every environment (never 400), and with no storage
failure it is answered 201 and appends one row holding exactly that content and
exactly that nickname. -/
theorem client_valid_accepted (msgValue nickValue c n : Str) (ip ra : Option Str)
    (now stamp : Nat) (s : Store)
    (h : validateInput msgValue nickValue = Validation.valid c n) :
    postHandler (Env.calm now stamp) (sendMessage c n ip ra) s
      = (⟨201, createResponse now true (Data.message ⟨nextId s, c, n, 0, stamp⟩)
            "留言发布成功"⟩,
          ⟨s.rows ++ [⟨nextId s, c, n, 0, stamp, some (clientIP (sendMessage c n ip ra))⟩],
            nextId s⟩) ∧
    (∀ e : Env, (postHandler e (sendMessage c n ip ra) s).1.status ≠ 400) := by
  obtain ⟨hc, hc1, hc2, hn⟩ := validateInput_valid h
  have htc : trim c = c := by
    rw [hc]
    exact trim_trim _
  have htn : trim n = n := by
    rcases hn with ⟨_, hd⟩ | ⟨hd, _, _⟩
    · rw [hd]
      rfl
    · rw [hd]
      exact trim_trim _
  have hnl : 1 ≤ n.length ∧ n.length ≤ 20 := by
    rcases hn with ⟨_, hd⟩ | ⟨_, h1, h2⟩
    · rw [hd]
      decide
    · exact ⟨h1, h2⟩
  have hvn : validNickname (JsVal.str n) = n := by
    have := validNickname_of_str (n := n) (by rw [htn]; exact hnl.1) (by rw [htn]; exact hnl.2)
    rw [this, htn]
  have hvalid : ValidContent (sendMessage c n ip ra) :=
    ⟨c, rfl, by rw [htc]; exact hc1, by rw [htc]; exact hc2⟩
  constructor
  · have := postHandler_calm now stamp (sendMessage c n ip ra) c s rfl
      (by rw [htc]; exact hc1) (by rw [htc]; exact hc2)
    rw [this]
    simp only [sendMessage, hvn, htc, insertRow]
  · exact fun e => postHandler_status_ne_400 e _ s hvalid

/-- Witness of C18: the fields `" hi "` and `""`. -/
theorem client_valid_accepted_witness :
    validateInput [32, 104, 105, 32] [] = Validation.valid [104, 105] defaultNickname ∧
    postHandler (Env.calm 1 5) (sendMessage [104, 105] defaultNickname none none) ⟨[], 0⟩
      = (⟨201, createResponse 1 true (Data.message ⟨1, [104, 105], defaultNickname, 0, 5⟩)
            "留言发布成功"⟩,
          ⟨[⟨1, [104, 105], defaultNickname, 0, 5, some unknownIP⟩], 1⟩) :=
  ⟨rfl, (client_valid_accepted [32, 104, 105, 32] [] [104, 105] defaultNickname none none 1 5
    ⟨[], 0⟩ rfl).1⟩

/-! ## Create: the stored nickname -/

theorem rdropWhile_append_rtakeWhile_ws (l : Str) :
    l.rdropWhile isWhiteSpace ++ l.rtakeWhile isWhiteSpace = l := by
  have h := List.takeWhile_append_dropWhile isWhiteSpace l.reverse
  have h2 := congrArg List.reverse h
  rw [List.reverse_append, List.reverse_reverse] at h2
  exact h2

theorem trim_spec (n : Str) :
    ∃ pre post : Str, n = pre ++ trim n ++ post ∧
      (∀ c ∈ pre, isWhiteSpace c = true) ∧ (∀ c ∈ post, isWhiteSpace c = true) ∧
      (∀ c ∈ (trim n).head?, isWhiteSpace c = false) ∧
      (∀ c ∈ (trim n).getLast?, isWhiteSpace c = false) := by
  have ht : trim n = (n.dropWhile isWhiteSpace).rdropWhile isWhiteSpace := rfl
  refine ⟨n.takeWhile isWhiteSpace, (n.dropWhile isWhiteSpace).rtakeWhile isWhiteSpace,
    ?_, ?_, ?_, ?_, ?_⟩
  · rw [ht, List.append_assoc, rdropWhile_append_rtakeWhile_ws,
      List.takeWhile_append_dropWhile]
  · exact fun c hc => List.mem_takeWhile_imp hc
  · exact fun c hc => List.mem_rtakeWhile_imp hc
  · intro c hc
    have hself : (trim n).dropWhile isWhiteSpace = trim n := by
      rw [ht]
      exact dropWhile_rdropWhile_self _ (List.dropWhile_idempotent _ _)
    obtain ⟨ys, hys⟩ := List.head?_eq_some_iff.mp hc
    rw [hys] at hself
    exact dropWhile_cons_self.mp hself
  · intro c hc
    obtain ⟨hne, hlast⟩ := List.mem_getLast?_eq_getLast hc
    have := List.rdropWhile_last_not isWhiteSpace (n.dropWhile isWhiteSpace) hne
    rw [hlast]
    simpa using this

/-- C7. For every Create request whose content passes validation and every
store: handled with no storage failure the request answers 201 and appends one
row. When the nickname is a string whose trimmed form has 1 to 20 code units,
the stored nickname is that trimmed form: the supplied string with its leading
and trailing white space removed and nothing else (it neither starts nor ends
with white space, and the supplied string is it between two runs of white
space), so `" bob "` is stored as `"bob"`. In every other case (nickname absent,
not a string, empty or blank, or longer than 20 code units after trimming) the
stored nickname is the sentinel `'匿名用户'`. In no environment is the request
answered 400. -/
theorem stored_nickname (now stamp : Nat) (req : CreateReq) (s : Store)
    (hv : ValidContent req) :
    (postHandler (Env.calm now stamp) req s).1.status = 201 ∧
    (∃ nick : Str,
      (postHandler (Env.calm now stamp) req s).2.rows
        = s.rows ++ [⟨nextId s, trim req.content.units, nick, 0, stamp,
            some (clientIP req)⟩] ∧
      (∀ n : Str, req.nickname = JsVal.str n → 1 ≤ (trim n).length →
        (trim n).length ≤ 20 →
        nick = trim n ∧
        ∃ pre post : Str, n = pre ++ nick ++ post ∧
          (∀ c ∈ pre, isWhiteSpace c = true) ∧ (∀ c ∈ post, isWhiteSpace c = true) ∧
          (∀ c ∈ nick.head?, isWhiteSpace c = false) ∧
          (∀ c ∈ nick.getLast?, isWhiteSpace c = false)) ∧
      ((∀ n : Str, req.nickname = JsVal.str n →
          (trim n).length = 0 ∨ 20 < (trim n).length) → nick = defaultNickname) ∧
      (req.nickname = JsVal.undefined → nick = defaultNickname) ∧
      (req.nickname.isString = false → nick = defaultNickname) ∧
      (∀ n : Str, req.nickname = JsVal.str n → (trim n).length = 0 →
        nick = defaultNickname) ∧
      (∀ n : Str, req.nickname = JsVal.str n → 20 < (trim n).length →
        nick = defaultNickname)) ∧
    (∀ e : Env, (postHandler e req s).1.status ≠ 400) ∧
    defaultNickname = [0x533F, 0x540D, 0x7528, 0x6237] ∧
    trim [32, 98, 111, 98, 32] = [98, 111, 98] ∧
    trim [9, 10, 0x3000, 97, 32, 98, 0xA0, 0xFEFF, 13] = [97, 32, 98] ∧
    (postHandler (Env.calm 1 5)
        ⟨JsVal.str [104, 105], JsVal.str [32, 98, 111, 98, 32], none, none⟩ ⟨[], 0⟩).2.rows
      = [⟨1, [104, 105], [98, 111, 98], 0, 5, some unknownIP⟩] ∧
    (postHandler (Env.calm 1 5)
        ⟨JsVal.str [104, 105], JsVal.str [32, 32], none, none⟩ ⟨[], 0⟩).2.rows
      = [⟨1, [104, 105], defaultNickname, 0, 5, some unknownIP⟩] := by
  obtain ⟨hst, hrows⟩ := postHandler_calm_rows now stamp req s hv
  refine ⟨hst, ⟨validNickname req.nickname, hrows, ?_, ?_, ?_, ?_, ?_, ?_⟩,
    fun e => postHandler_status_ne_400 e req s hv, rfl, rfl, rfl, rfl, rfl⟩
  · intro n hn h1 h2
    have hnick : validNickname req.nickname = trim n := by
      rw [hn]
      exact validNickname_of_str h1 h2
    rw [hnick]
    exact ⟨rfl, trim_spec n⟩
  · exact validNickname_default
  · intro hn
    rw [hn]
    rfl
  · intro hn
    apply validNickname_default
    intro m hm
    rw [hm] at hn
    cases hn
  · intro n hn h0
    apply validNickname_default
    intro m hm
    rw [hn] at hm
    cases hm
    exact Or.inl h0
  · intro n hn h20
    apply validNickname_default
    intro m hm
    rw [hn] at hm
    cases hm
    exact Or.inr h20

/-- Witness of C7: content `"hi"` with the nickname `" bob "`, stored as
`"bob"`. -/
theorem stored_nickname_witness :
    ValidContent ⟨JsVal.str [104, 105], JsVal.str [32, 98, 111, 98, 32], none, none⟩ ∧
    (postHandler (Env.calm 1 5)
        ⟨JsVal.str [104, 105], JsVal.str [32, 98, 111, 98, 32], none, none⟩ ⟨[], 0⟩).1.status
      = 201 ∧
    ∃ nick : Str,
      (postHandler (Env.calm 1 5)
          ⟨JsVal.str [104, 105], JsVal.str [32, 98, 111, 98, 32], none, none⟩ ⟨[], 0⟩).2.rows
        = [⟨1, [104, 105], nick, 0, 5, some unknownIP⟩] ∧
      nick = [98, 111, 98] :=
  have hv : ValidContent ⟨JsVal.str [104, 105], JsVal.str [32, 98, 111, 98, 32], none, none⟩ :=
    ⟨[104, 105], rfl, by decide, by decide⟩
  have h := stored_nickname 1 5
    ⟨JsVal.str [104, 105], JsVal.str [32, 98, 111, 98, 32], none, none⟩ ⟨[], 0⟩ hv
  ⟨hv, h.1, by
    obtain ⟨nick, hrows, hstr, _⟩ := h.2.1
    have hn := (hstr [32, 98, 111, 98, 32] rfl (by decide) (by decide)).1
    refine ⟨nick, hrows, ?_⟩
    rw [hn]
    rfl⟩

/-! ## Storage failures, from the driver to the response -/

theorem changes_ne_zero_of_mem {n : Int} {s : Store}
    (h : ∃ row ∈ s.rows, (row.id : Int) = n) : ¬ changes n s = 0 := by
  obtain ⟨v, hv⟩ := selectById_of_mem h
  rw [changes_eq_zero_iff, hv]
  simp

theorem thrown_of_fault {e : Env} {r : Request} {s : Store} {msg : String}
    (hadm : Admitted r) (hf : FirstFault e r s msg) : thrown e r s = some msg := by
  cases r with
  | list =>
    rcases hf with h | ⟨h1, h2⟩ | ⟨_, _, h3⟩
    · simp [thrown, tryBlock, listTry, getAllMessages, h]
    · simp [thrown, tryBlock, listTry, getAllMessages, h1, h2]
    · exact absurd h3 id
  | get p =>
    obtain ⟨n, hp, hn⟩ := hadm
    have hn2 : ¬ n ≤ 0 := by omega
    rcases hf with h | ⟨h1, h2⟩ | ⟨_, _, h3⟩
    · simp [thrown, tryBlock, getTry, hp, hn2, getMessageById, h]
    · simp [thrown, tryBlock, getTry, hp, hn2, getMessageById, h1, h2]
    · exact absurd h3 id
  | create req =>
    obtain ⟨c, hc, hc1, hc2⟩ := hadm
    have hb := content_accepted hc hc1
    have hu : req.content.units = c := by simp [hc, JsVal.units]
    have h0 : ¬ (trim c).length = 0 := by omega
    have h200 : ¬ (trim c).length > 200 := by omega
    rcases hf with h | ⟨h1, h2⟩ | ⟨h1, h2, h3⟩
    · simp [thrown, tryBlock, postTry, hb, hu, h0, h200, createMessage, h]
    · simp [thrown, tryBlock, postTry, hb, hu, h0, h200, createMessage, h1, h2]
    · have h3b : e.stmt2 = some msg := h3
      simp [thrown, tryBlock, postTry, hb, hu, h0, h200, createMessage, h1, h2, h3b]
  | delete p =>
    obtain ⟨n, hp, hn⟩ := hadm
    have hn2 : ¬ n ≤ 0 := by omega
    rcases hf with h | ⟨h1, h2⟩ | ⟨h1, h2, h3⟩
    · simp [thrown, tryBlock, deleteTry, hp, hn2, getMessageById, h]
    · simp [thrown, tryBlock, deleteTry, hp, hn2, getMessageById, h1, h2]
    · obtain ⟨⟨m, hpm, hmem⟩, h4⟩ : (∃ m, parseInt p = some m ∧
          ∃ row ∈ s.rows, (row.id : Int) = m) ∧
          (e.open2 = some msg ∨ (e.open2 = none ∧ e.stmt2 = some msg)) := h3
      have hmn : m = n := by
        rw [hp] at hpm
        exact (Option.some.inj hpm).symm
      subst hmn
      obtain ⟨v, hv⟩ := selectById_of_mem hmem
      rcases h4 with h5 | ⟨h5, h6⟩
      · simp [thrown, tryBlock, deleteTry, hp, hn2, getMessageById, h1, h2, hv, deleteMessage,
          h5]
      · simp [thrown, tryBlock, deleteTry, hp, hn2, getMessageById, h1, h2, hv, deleteMessage,
          h5, h6]
  | like p =>
    obtain ⟨n, hp, hn⟩ := hadm
    have hn2 : ¬ n ≤ 0 := by omega
    rcases hf with h | ⟨h1, h2⟩ | ⟨h1, h2, h3⟩
    · simp [thrown, tryBlock, likeTry, hp, hn2, likeMessage, h]
    · simp [thrown, tryBlock, likeTry, hp, hn2, likeMessage, h1, h2]
    · obtain ⟨⟨m, hpm, hmem⟩, h4⟩ : (∃ m, parseInt p = some m ∧
          ∃ row ∈ s.rows, (row.id : Int) = m) ∧ e.stmt2 = some msg := h3
      have hmn : m = n := by
        rw [hp] at hpm
        exact (Option.some.inj hpm).symm
      subst hmn
      have hc := changes_ne_zero_of_mem hmem
      simp [thrown, tryBlock, likeTry, hp, hn2, likeMessage, h1, h2, hc, h4]

/-- C10. For each of the five message endpoints, every store and every
environment: when a request that passed validation meets a failing driver call
(the connection, the first statement, or a second call the handler goes on to:
the read-back of Create and Like, the second connection and the `DELETE` of
Delete), and for Like the error is not the not-found rejection, which the
handler recognises by its text, then that error is what the `try` block throws
and the response is the generic envelope: status 500, `success = false`,
`data = null` and the fixed message. The response is the same for every such
error: two runs of the same request that differ in the error raised, in its
text, in which call failed or in the store are answered alike, so no error
detail reaches the caller. -/
theorem storage_error_generic (e : Env) (r : Request) (s : Store) (msg : String)
    (hadm : Admitted r) (hf : FirstFault e r s msg)
    (hl : isLike r = true → msg ≠ notFoundText) :
    thrown e r s = some msg ∧
    (handle e r s).1 = ⟨500, ⟨false, Data.null, "服务器内部错误", e.now⟩⟩ ∧
    ∀ (e2 : Env) (s2 : Store) (msg2 : String), e2.now = e.now →
      FirstFault e2 r s2 msg2 → (isLike r = true → msg2 ≠ notFoundText) →
      (handle e2 r s2).1 = (handle e r s).1 := by
  have ht := thrown_of_fault hadm hf
  have h1 := handle_of_thrown ht hl
  refine ⟨ht, h1, ?_⟩
  intro e2 s2 msg2 hnow h2 hl2
  rw [h1, handle_of_thrown (thrown_of_fault hadm h2) hl2, hnow]

/-- Witness of C10: one failing driver call for each endpoint. List cannot open
the database, the `SELECT` of Get fails, the read-back of Create fails, the
second connection of Delete cannot be opened, the read-back of Like fails. -/
theorem storage_error_generic_witness :
    (Admitted Request.list ∧
      FirstFault ⟨3, 0, some "SQLITE_CANTOPEN", none, id, none, none⟩ Request.list
        ⟨[⟨1, [104, 105], defaultNickname, 0, 5, none⟩], 1⟩ "SQLITE_CANTOPEN") ∧
    (handle ⟨3, 0, some "SQLITE_CANTOPEN", none, id, none, none⟩ Request.list
        ⟨[⟨1, [104, 105], defaultNickname, 0, 5, none⟩], 1⟩).1
      = ⟨500, ⟨false, Data.null, "服务器内部错误", 3⟩⟩ ∧
    (handle ⟨3, 0, none, some "SQLITE_BUSY", id, none, none⟩ (Request.get [49])
        ⟨[⟨1, [104, 105], defaultNickname, 0, 5, none⟩], 1⟩).1
      = ⟨500, ⟨false, Data.null, "服务器内部错误", 3⟩⟩ ∧
    (handle ⟨3, 0, none, none, id, none, some "SQLITE_IOERR"⟩
        (Request.create ⟨JsVal.str [104, 105], JsVal.undefined, none, none⟩)
        ⟨[⟨1, [104, 105], defaultNickname, 0, 5, none⟩], 1⟩).1
      = ⟨500, ⟨false, Data.null, "服务器内部错误", 3⟩⟩ ∧
    (handle ⟨3, 0, none, none, id, some "SQLITE_CANTOPEN", none⟩ (Request.delete [49])
        ⟨[⟨1, [104, 105], defaultNickname, 0, 5, none⟩], 1⟩).1
      = ⟨500, ⟨false, Data.null, "服务器内部错误", 3⟩⟩ ∧
    (handle ⟨3, 0, none, none, id, none, some "SQLITE_BUSY"⟩ (Request.like [49])
        ⟨[⟨1, [104, 105], defaultNickname, 0, 5, none⟩], 1⟩).1
      = ⟨500, ⟨false, Data.null, "服务器内部错误", 3⟩⟩ :=
  have hrow : ∃ n : Int, parseInt [49] = some n ∧
      ∃ row ∈ (⟨[⟨1, [104, 105], defaultNickname, 0, 5, none⟩], 1⟩ : Store).rows,
        (row.id : Int) = n :=
    ⟨1, rfl, _, List.mem_singleton.mpr rfl, rfl⟩
  ⟨⟨trivial, Or.inl rfl⟩,
    (storage_error_generic ⟨3, 0, some "SQLITE_CANTOPEN", none, id, none, none⟩ Request.list
      ⟨[⟨1, [104, 105], defaultNickname, 0, 5, none⟩], 1⟩ "SQLITE_CANTOPEN" trivial
      (Or.inl rfl) (fun h => by cases h)).2.1,
    (storage_error_generic ⟨3, 0, none, some "SQLITE_BUSY", id, none, none⟩ (Request.get [49])
      ⟨[⟨1, [104, 105], defaultNickname, 0, 5, none⟩], 1⟩ "SQLITE_BUSY"
      ⟨1, rfl, by decide⟩ (Or.inr (Or.inl ⟨rfl, rfl⟩)) (fun h => by cases h)).2.1,
    (storage_error_generic ⟨3, 0, none, none, id, none, some "SQLITE_IOERR"⟩
      (Request.create ⟨JsVal.str [104, 105], JsVal.undefined, none, none⟩)
      ⟨[⟨1, [104, 105], defaultNickname, 0, 5, none⟩], 1⟩ "SQLITE_IOERR"
      ⟨[104, 105], rfl, by decide, by decide⟩ (Or.inr (Or.inr ⟨rfl, rfl, rfl⟩))
      (fun h => by cases h)).2.1,
    (storage_error_generic ⟨3, 0, none, none, id, some "SQLITE_CANTOPEN", none⟩
      (Request.delete [49])
      ⟨[⟨1, [104, 105], defaultNickname, 0, 5, none⟩], 1⟩ "SQLITE_CANTOPEN"
      ⟨1, rfl, by decide⟩ (Or.inr (Or.inr ⟨rfl, rfl, hrow, Or.inl rfl⟩))
      (fun h => by cases h)).2.1,
    (storage_error_generic ⟨3, 0, none, none, id, none, some "SQLITE_BUSY"⟩
      (Request.like [49])
      ⟨[⟨1, [104, 105], defaultNickname, 0, 5, none⟩], 1⟩ "SQLITE_BUSY"
      ⟨1, rfl, by decide⟩ (Or.inr (Or.inr ⟨rfl, rfl, hrow, rfl⟩))
      (fun _ => by decide)).2.1⟩

end Treehole
